import Mathlib

/-! Shallow embedding of the pyvcloud integration-test provisioning framework.

    Sources embedded:
    * `pyvcloud/system_test_framework/environment.py` : the `Environment`
      class with its idempotent provisioning steps (`attach_vc`,
      `create_pvdc`, `create_org`, `create_users`, `create_ovdc`,
      `_get_netpool_name_to_use`, `create_ovdc_network`, `create_catalog`,
      `upload_template`, `instantiate_vapp`, `cleanup`).
    * `pyvcloud/vcd/platform.py` : `Platform.get_vcenter`.

    Remote collections (vCenters, pVDCs, orgs, users, roles, VDCs,
    netpools, networks, catalogs, catalog items, vApps) are modelled as
    lists of name/href descriptors held in a `Remote` record; each
    provisioning step is a function from configuration, remote state and
    the class-level `Environment` registry to an `Out` record carrying the
    updated registry, the updated remote state, the trace of remote
    listing/creation/task-wait calls and debug logs the step issued, and
    an optional Python exception.  Class-level mutations performed before
    an exception is raised persist, exactly as in Python, so `Out` carries
    state even on the error path. -/

/-- A remote resource descriptor: a name and an opaque href (handle). -/
structure ResourceRef where
  name : String
  href : String
  deriving DecidableEq, Repr

/-- Observable remote interactions of a provisioning step: listing calls,
    creation calls, handing a task to the task monitor, and debug logs. -/
inductive Call where
  | listCall (kind : String)
  | createCall (kind : String) (name : String)
  | taskWait
  | logDebug (msg : String)
  deriving DecidableEq, Repr

/-- The Python exceptions the embedded code can raise: a generic
    `Exception(msg)` and the `IndexError` produced by indexing `xs[0]`
    on an empty list. -/
inductive PyError where
  | exception (msg : String)
  | indexError
  deriving DecidableEq, Repr

/-- Python `str(e)` for the modelled exceptions. -/
def pyStr : PyError → String
  | PyError.exception m => m
  | PyError.indexError => "list index out of range"

/-- Python `str.lower()` (ASCII case folding, which is all the code uses),
    written over the character list so it evaluates by kernel reduction. -/
def pyLower (s : String) : String := ⟨s.data.map Char.toLower⟩

/-- The single-quote character, used to build exception messages exactly
    as the Python source spells them. -/
def apos : String := String.singleton (Char.ofNat 39)

/-- The `for ... if x.get('name').lower() == n.lower(): ...` search loop
    used by `attach_vc`, `create_pvdc`, `create_org`, `create_ovdc`,
    `_get_netpool_name_to_use`, `create_ovdc_network` and
    `upload_template`: first descriptor whose name matches
    case-insensitively. -/
def findCI : List ResourceRef → String → Option ResourceRef
  | [], _ => none
  | r :: rs, n => if pyLower r.name = pyLower n then some r else findCI rs n

/-- The exact-equality search loop used by `create_catalog`
    (`if catalog_record.get('name') == catalog_name`) and by
    `Platform.get_vcenter` (`if record.get('name') == name`). -/
def findExact : List ResourceRef → String → Option ResourceRef
  | [], _ => none
  | r :: rs, n => if r.name = n then some r else findExact rs n

/-- The re-resolution loops of `create_org` and `create_ovdc` assign on
    every case-insensitive match without breaking, so the last match wins. -/
def findCILast (rs : List ResourceRef) (n : String) : Option ResourceRef :=
  rs.foldl (fun acc r => if pyLower r.name = pyLower n then some r else acc) none

/-- Python substring containment `needle in hay`. -/
def pyIn (needle hay : String) : Bool := decide (needle.data <:+: hay.data)

/-- Opaque href the remote control plane assigns to a newly created
    resource of a given kind. -/
def mkHref (kind name : String) : String := "href:" ++ kind ++ ":" ++ name

/-- The configuration fields the embedded steps read
    (`cls._config['vcd'][...]`, `cls._config['vc']['vcenter_host_name']`). -/
structure Config where
  vcenter_host_name : String
  default_pvdc_name : String
  default_org_name : String
  default_ovdc_name : String
  default_netpool_name : String
  default_ovdc_network_name : String
  default_catalog_name : String
  default_template_file_name : String
  default_vapp_name : String
  deriving DecidableEq, Repr

/-- The remote control plane state: one descriptor list per resource kind,
    plus whether asynchronous tasks handed to the task monitor reach the
    SUCCESS terminal state. -/
structure Remote where
  vcenters : List ResourceRef
  pvdcs : List ResourceRef
  orgs : List ResourceRef
  users : List ResourceRef
  roles : List ResourceRef
  vdcs : List ResourceRef
  netpools : List ResourceRef
  networks : List ResourceRef
  catalogs : List ResourceRef
  catalog_items : List ResourceRef
  vapps : List ResourceRef
  tasksSucceed : Bool
  deriving DecidableEq, Repr

/-- The class-level `Environment` registry: `_sys_admin_client`,
    `_pvdc_href`, `_pvdc_name`, `_org_href`, `_ovdc_href`, `_vapp_href`
    and `_user_href_for_user_names`. -/
structure EnvState where
  sys_admin_client : Bool
  pvdc_href : Option String
  pvdc_name : Option String
  org_href : Option String
  ovdc_href : Option String
  vapp_href : Option String
  user_href_for_user_names : List (String × String)
  deriving DecidableEq, Repr

/-- The registry at class-definition time: every handle unset, the
    user-href map empty. -/
def initState : EnvState := ⟨false, none, none, none, none, none, []⟩

/-- Result of running a provisioning step: the registry and remote state
    after the step (class-level writes persist even when an exception is
    raised later in the step), the trace of remote calls and logs, and the
    uncaught exception if one escaped. -/
structure Out where
  s : EnvState
  w : Remote
  tr : List Call
  err : Option PyError
  deriving DecidableEq, Repr

/-- Python dict assignment `d[k] = v` on an association list. -/
def mapInsert : List (String × String) → String → String → List (String × String)
  | [], k, v => [(k, v)]
  | (k0, v0) :: rest, k, v =>
    if k0 = k then (k0, v) :: rest else (k0, v0) :: mapInsert rest k v

/-- `Environment._user_name_for_roles` in its (insertion-ordered)
    iteration order: role display name paired with the fixed username. -/
def user_name_for_roles : List (String × String) :=
  [("Catalog Author", "catalog_author"),
   ("Console Access Only", "console_user"),
   ("Organization Administrator", "org_admin"),
   ("vApp Author", "vapp_author"),
   ("vApp User", "vapp_user")]

/-- `Environment._basic_check`: the configuration is a parameter of the
    embedding (so always present) and the sys-admin client is created if
    missing. -/
def basic_check (s : EnvState) : EnvState := { s with sys_admin_client := true }

/-- `task_monitor.wait_for_success(task)`: hands the task to the monitor;
    raises when the task does not reach the SUCCESS terminal state. -/
def wait_for_success (w : Remote) : Option PyError × List Call :=
  if w.tasksSucceed then (none, [Call.taskWait])
  else (some (PyError.exception "task did not reach success"), [Call.taskWait])

/-- Exception message `<kind> <name> doesn't exist.` used by the
    dependency checks of `create_users`, `create_ovdc`,
    `create_ovdc_network` and `instantiate_vapp`. -/
def missingMsg (kind name : String) : String :=
  kind ++ " " ++ name ++ " doesn" ++ apos ++ "t exist."

/-- `Environment.attach_vc`: list attached vCenters, return if one matches
    the configured name case-insensitively, otherwise attach (note: the
    source issues the attach call and returns without waiting on the task,
    with the comment `TODO(VCDA-603) wait for async task to finish`). -/
def attach_vc (cfg : Config) (w : Remote) (s : EnvState) : Out :=
  let s := basic_check s
  let vcName := cfg.vcenter_host_name
  match findCI w.vcenters vcName with
  | some _ =>
    ⟨s, w, [Call.listCall "vcenter",
            Call.logDebug (vcName ++ " is already attached.")], none⟩
  | none =>
    ⟨s, { w with vcenters := w.vcenters ++ [⟨vcName, mkHref "vcenter" vcName⟩] },
     [Call.listCall "vcenter", Call.createCall "vcenter" vcName], none⟩

/-- The fall-through tail of `create_pvdc`: log the default choice and
    record the first listed pVDC; `pvdc_refs[0]` raises `IndexError` on an
    empty listing. -/
def pvdc_default (w : Remote) (s : EnvState) (tr : List Call) : Out :=
  match w.pvdcs with
  | [] => ⟨s, w, tr, some PyError.indexError⟩
  | r0 :: _ =>
    ⟨{ s with pvdc_href := some r0.href, pvdc_name := some r0.name }, w,
     tr ++ [Call.logDebug ("Defaulting to first pvdc in the system viz." ++ r0.name)],
     none⟩

/-- `Environment.create_pvdc`: when the configured name is not the
    wildcard, reuse a case-insensitive match; otherwise (or when no match
    is found — the creation branch is an unimplemented TODO) fall through
    to the first listed pVDC.  CPython interns one-character strings, so
    `pvdc_name is not a one-character literal` behaves as inequality. -/
def create_pvdc (cfg : Config) (w : Remote) (s : EnvState) : Out :=
  let s := basic_check s
  let pvdcName := cfg.default_pvdc_name
  let tr0 := [Call.listCall "pvdc"]
  if pvdcName = "*" then
    pvdc_default w s tr0
  else
    match findCI w.pvdcs pvdcName with
    | some r =>
      ⟨{ s with pvdc_href := some r.href, pvdc_name := some pvdcName }, w,
       tr0 ++ [Call.logDebug ("Reusing existing " ++ pvdcName)], none⟩
    | none =>
      pvdc_default w s (tr0 ++ [Call.logDebug ("Creating new pvdc" ++ pvdcName)])

/-- `Environment.create_org`: reuse a case-insensitive match from the org
    list; otherwise create the org (no task wait in the source) and
    re-list to pick up the non-admin href (last match wins because the
    loop assigns without returning). -/
def create_org (cfg : Config) (w : Remote) (s : EnvState) : Out :=
  let s := basic_check s
  let orgName := cfg.default_org_name
  let tr0 := [Call.listCall "org"]
  match findCI w.orgs orgName with
  | some r =>
    ⟨{ s with org_href := some r.href }, w,
     tr0 ++ [Call.logDebug ("Reusing existing org " ++ orgName ++ ".")], none⟩
  | none =>
    let w2 := { w with orgs := w.orgs ++ [⟨orgName, mkHref "org" orgName⟩] }
    let tr := tr0 ++ [Call.logDebug ("Creating new org " ++ orgName),
                      Call.createCall "org" orgName, Call.listCall "org"]
    match findCILast w2.orgs orgName with
    | some r => ⟨{ s with org_href := some r.href }, w2, tr, none⟩
    | none => ⟨s, w2, tr, none⟩

/-- The per-role loop body of `Environment.create_users`.  `org.list_users`
    with a name filter is not under `src/`; modelled from the spec:
    the Resource Locator contract matches the desired name
    case-insensitively.  `org.get_role_record` is also not under `src/`;
    modelled from the spec as a remote lookup that raises a
    RemoteOperationError-style exception when the role is absent.  There
    is no exception handling around the loop body in the source, so an
    exception raised for one role escapes the whole loop. -/
def create_users_loop (cfg : Config) :
    List (String × String) → Remote → EnvState → Out
  | [], w, s => ⟨s, w, [], none⟩
  | (roleName, userName) :: rest, w, s =>
    let tr0 := [Call.listCall "user"]
    match w.users.filter (fun u => pyLower u.name = pyLower userName) with
    | u0 :: _ =>
      let s2 := { s with user_href_for_user_names :=
                    mapInsert s.user_href_for_user_names userName u0.href }
      let o := create_users_loop cfg rest w s2
      ⟨o.s, o.w,
       tr0 ++ [Call.logDebug ("Reusing existing user " ++ userName ++ ".")] ++ o.tr,
       o.err⟩
    | [] =>
      match findExact w.roles roleName with
      | none =>
        ⟨s, w, tr0, some (PyError.exception ("role " ++ roleName ++ " not found"))⟩
      | some _ =>
        let href := mkHref "user" userName
        let w2 := { w with users := w.users ++ [⟨userName, href⟩] }
        let s2 := { s with user_href_for_user_names :=
                      mapInsert s.user_href_for_user_names userName href }
        let o := create_users_loop cfg rest w2 s2
        ⟨o.s, o.w,
         tr0 ++ [Call.logDebug ("Creating user " ++ userName ++ "."),
                 Call.createCall "user" userName] ++ o.tr,
         o.err⟩

/-- `Environment.create_users`: fails fast when `_org_href` is unset, then
    check-then-creates one user per role of the fixed role map. -/
def create_users (cfg : Config) (w : Remote) (s : EnvState) : Out :=
  let s := basic_check s
  match s.org_href with
  | none => ⟨s, w, [], some (PyError.exception (missingMsg "Org" cfg.default_org_name))⟩
  | some _ => create_users_loop cfg user_name_for_roles w s

/-- `Environment._get_netpool_name_to_use`: case-insensitive match on the
    netpool listing (recording the listed name, in its listed case) when
    the configured name is not the wildcard; otherwise, or on no match,
    default to the first listed netpool — `netpools[0]` raises
    `IndexError` on an empty listing. -/
def get_netpool_name_to_use (cfg : Config) (w : Remote) :
    List Call × Except PyError String :=
  let tr0 := [Call.listCall "netpool"]
  let netpoolName := cfg.default_netpool_name
  let found : Option String :=
    if netpoolName = "*" then none
    else
      match findCI w.netpools netpoolName with
      | some r => some r.name
      | none => none
  match found with
  | some n => (tr0, Except.ok n)
  | none =>
    match w.netpools with
    | [] => (tr0, Except.error PyError.indexError)
    | r0 :: _ =>
      (tr0 ++ [Call.logDebug ("Using first netpool in system viz. " ++ r0.name)],
       Except.ok r0.name)

/-- `Environment.create_ovdc`: fails fast when `_org_href` or `_pvdc_name`
    is unset; reuses a case-insensitive match from the VDC listing;
    otherwise resolves the netpool, creates the org VDC, waits for the
    creation task, and re-lists for the non-admin href (assignment only
    happens after the wait succeeds). -/
def create_ovdc (cfg : Config) (w : Remote) (s : EnvState) : Out :=
  let s := basic_check s
  match s.org_href with
  | none => ⟨s, w, [], some (PyError.exception (missingMsg "Org" cfg.default_org_name))⟩
  | some _ =>
    match s.pvdc_name with
    | none => ⟨s, w, [], some (PyError.exception (missingMsg "pVDC" cfg.default_pvdc_name))⟩
    | some _ =>
      let ovdcName := cfg.default_ovdc_name
      let tr0 := [Call.listCall "vdc"]
      match findCI w.vdcs ovdcName with
      | some r =>
        ⟨{ s with ovdc_href := some r.href }, w,
         tr0 ++ [Call.logDebug ("Reusing existing ovdc " ++ ovdcName ++ ".")], none⟩
      | none =>
        match get_netpool_name_to_use cfg w with
        | (tr1, Except.error e) => ⟨s, w, tr0 ++ tr1, some e⟩
        | (tr1, Except.ok _) =>
          let w2 := { w with vdcs := w.vdcs ++ [⟨ovdcName, mkHref "vdc" ovdcName⟩] }
          let tr := tr0 ++ tr1 ++
            [Call.logDebug ("Creating ovdc " ++ ovdcName ++ "."),
             Call.createCall "vdc" ovdcName]
          match wait_for_success w2 with
          | (some e, trw) => ⟨s, w2, tr ++ trw, some e⟩
          | (none, trw) =>
            let tr2 := tr ++ trw ++ [Call.listCall "vdc"]
            match findCILast w2.vdcs ovdcName with
            | some r => ⟨{ s with ovdc_href := some r.href }, w2, tr2, none⟩
            | none => ⟨s, w2, tr2, none⟩

/-- `Environment.create_ovdc_network`: fails fast when `_ovdc_href` is
    unset; reuses a case-insensitive match from the org-VDC network
    records (storing nothing); otherwise creates the isolated network and
    waits for the creation task. -/
def create_ovdc_network (cfg : Config) (w : Remote) (s : EnvState) : Out :=
  let s := basic_check s
  match s.ovdc_href with
  | none => ⟨s, w, [], some (PyError.exception (missingMsg "OrgVDC" cfg.default_ovdc_name))⟩
  | some _ =>
    let netName := cfg.default_ovdc_network_name
    let tr0 := [Call.listCall "network"]
    match findCI w.networks netName with
    | some _ =>
      ⟨s, w, tr0 ++ [Call.logDebug ("Reusing existing org-vdc network " ++ netName)],
       none⟩
    | none =>
      let w2 := { w with networks := w.networks ++ [⟨netName, mkHref "network" netName⟩] }
      let (e, trw) := wait_for_success w2
      ⟨s, w2,
       tr0 ++ [Call.logDebug ("Creating org-vdc network " ++ netName),
               Call.createCall "network" netName] ++ trw,
       e⟩

/-- `Environment.create_catalog`: fails fast when `_org_href` is unset;
    reuses a catalog whose listed name equals the configured name by exact
    string comparison (the one locator in the file that does not lower-case
    before comparing); otherwise creates the catalog and waits for the
    creation task. -/
def create_catalog (cfg : Config) (w : Remote) (s : EnvState) : Out :=
  let s := basic_check s
  match s.org_href with
  | none => ⟨s, w, [], some (PyError.exception (missingMsg "Org" cfg.default_org_name))⟩
  | some _ =>
    let catalogName := cfg.default_catalog_name
    let tr0 := [Call.listCall "catalog"]
    match findExact w.catalogs catalogName with
    | some _ =>
      ⟨s, w, tr0 ++ [Call.logDebug ("Reusing existing catalog " ++ catalogName)], none⟩
    | none =>
      let w2 := { w with catalogs := w.catalogs ++ [⟨catalogName, mkHref "catalog" catalogName⟩] }
      let (e, trw) := wait_for_success w2
      ⟨s, w2,
       tr0 ++ [Call.logDebug ("Creating new catalog " ++ catalogName),
               Call.createCall "catalog" catalogName] ++ trw,
       e⟩

/-- `Environment.upload_template`: fails fast when `_org_href` is unset;
    reuses a case-insensitive match from the catalog item listing;
    otherwise uploads the template and waits for the upload task. -/
def upload_template (cfg : Config) (w : Remote) (s : EnvState) : Out :=
  let s := basic_check s
  match s.org_href with
  | none => ⟨s, w, [], some (PyError.exception (missingMsg "Org" cfg.default_org_name))⟩
  | some _ =>
    let templateName := cfg.default_template_file_name
    let tr0 := [Call.listCall "catalog_item"]
    match findCI w.catalog_items templateName with
    | some _ =>
      ⟨s, w, tr0 ++ [Call.logDebug ("Reusing existing template " ++ templateName)], none⟩
    | none =>
      let w2 := { w with catalog_items :=
                    w.catalog_items ++ [⟨templateName, mkHref "catalog_item" templateName⟩] }
      let (e, trw) := wait_for_success w2
      ⟨s, w2,
       tr0 ++ [Call.logDebug ("Uploading template " ++ templateName ++
                                " to catalog " ++ cfg.default_catalog_name ++ "."),
               Call.createCall "catalog_item" templateName] ++ trw,
       e⟩

/-- `vdc.get_vapp(name)` is not under `src/`; modelled from the spec: a
    lookup that raises an error whose message contains `not found` when
    the vApp is absent.  The `fault` parameter injects an arbitrary
    lookup failure, standing for the generic exceptions the source's
    `except Exception` clause can receive from the collaborator. -/
def get_vapp (fault : Option String) (w : Remote) (name : String) :
    Except PyError ResourceRef :=
  match fault with
  | some m => Except.error (PyError.exception m)
  | none =>
    match findExact w.vapps name with
    | some r => Except.ok r
    | none =>
      Except.error (PyError.exception
        ("Vapp named " ++ apos ++ name ++ apos ++ " not found"))

/-- `Environment.instantiate_vapp`: fails fast when `_ovdc_href` is unset;
    looks the vApp up and reuses it; on any exception, instantiates the
    vApp only when the message contains `not found` (waiting on the task
    before recording the href) — an exception without that substring is
    caught and silently dropped by the `except` clause. -/
def instantiate_vapp (fault : Option String) (cfg : Config) (w : Remote)
    (s : EnvState) : Out :=
  let s := basic_check s
  match s.ovdc_href with
  | none => ⟨s, w, [], some (PyError.exception (missingMsg "OVDC" cfg.default_ovdc_name))⟩
  | some _ =>
    let vappName := cfg.default_vapp_name
    match get_vapp fault w vappName with
    | Except.ok r =>
      ⟨{ s with vapp_href := some r.href }, w,
       [Call.listCall "vapp",
        Call.logDebug ("Reusing existing vApp " ++ vappName ++ ".")], none⟩
    | Except.error e =>
      if pyIn "not found" (pyStr e) then
        let href := mkHref "vapp" vappName
        let w2 := { w with vapps := w.vapps ++ [⟨vappName, href⟩] }
        let tr := [Call.listCall "vapp",
                   Call.logDebug ("Instantiating vApp " ++ vappName ++ "."),
                   Call.createCall "vapp" vappName]
        match wait_for_success w2 with
        | (some e2, trw) => ⟨s, w2, tr ++ trw, some e2⟩
        | (none, trw) => ⟨{ s with vapp_href := some href }, w2, tr ++ trw, none⟩
      else
        ⟨s, w, [Call.listCall "vapp"], none⟩

/-- `Environment.cleanup`: when the sys-admin client is set, log out and
    clear the client and the five href/name class variables; the
    `_user_href_for_user_names` map is not touched, and nothing is cleared
    when the client is unset. -/
def cleanup (s : EnvState) : EnvState :=
  if s.sys_admin_client then
    { s with sys_admin_client := false, pvdc_href := none, pvdc_name := none,
             org_href := none, ovdc_href := none, vapp_href := none }
  else s

/-- `Platform.get_vcenter`: return `client.get_resource(record.href)` for
    the first listed vCenter record whose name equals the argument by
    exact string comparison, `None` otherwise.  The opaque
    `client.get_resource` is the parameter `fetch`. -/
def get_vcenter (fetch : String → String) :
    List ResourceRef → String → Option String
  | [], _ => none
  | r :: rs, name =>
    if r.name = name then some (fetch r.href) else get_vcenter fetch rs name

/-- Sequencing of provisioning steps: a raised exception aborts the rest
    of the sequence; traces accumulate. -/
def stepSeq (o : Out) (f : Remote → EnvState → Out) : Out :=
  match o.err with
  | some _ => o
  | none =>
    let o2 := f o.w o.s
    ⟨o2.s, o2.w, o.tr ++ o2.tr, o2.err⟩

/-- The full provisioning sequence in its fixed dependency order, as run
    by the test harness BaseTestCase setup. -/
def runAll (cfg : Config) (w : Remote) (s : EnvState) : Out :=
  stepSeq (stepSeq (stepSeq (stepSeq (stepSeq (stepSeq (stepSeq (stepSeq
    (attach_vc cfg w s)
    (create_pvdc cfg)) (create_org cfg)) (create_users cfg)) (create_ovdc cfg))
    (create_ovdc_network cfg)) (create_catalog cfg)) (upload_template cfg))
    (instantiate_vapp none cfg)

/-- No creation call occurs in a trace. -/
def NoCreate (tr : List Call) : Prop :=
  ∀ k n, Call.createCall k n ∉ tr

/-! ### Concrete fixtures used by counterexamples and witnesses -/

/-- A remote state with no resources of any kind and succeeding tasks. -/
def emptyRemote : Remote := ⟨[], [], [], [], [], [], [], [], [], [], [], true⟩

/-- Configuration with short distinct names, wildcard nowhere. -/
def cfgA : Config := ⟨"vc1", "p1", "o1", "v1", "np1", "n1", "c1", "t1", "a1"⟩

/-- Registry with the org handle resolved. -/
def stOrg : EnvState := { initState with org_href := some "ho" }

/-- Registry with the org-VDC handle resolved. -/
def stOvdc : EnvState := { initState with ovdc_href := some "hov" }

/-! ### C10 -/

/-- C10: `Platform.get_vcenter` returns the fetched resource of the first
    listed vCenter record whose name equals the argument by exact,
    case-sensitive comparison (`List.find?` with an equality predicate),
    and returns `none` rather than raising when nothing matches exactly —
    in particular a record differing only in letter case is not matched. -/
theorem get_vcenter_exact_first_match (fetch : String → String)
    (vcs : List ResourceRef) (name : String) :
    get_vcenter fetch vcs name =
      (vcs.find? (fun r => r.name == name)).map (fun r => fetch r.href) ∧
    get_vcenter fetch [⟨"VC1", "h1"⟩] "vc1" = none := by
  constructor
  · induction vcs with
    | nil => rfl
    | cons r rs ih =>
      by_cases h : r.name = name
      · rw [List.find?_cons_of_pos _ (by simp [h])]
        simp [get_vcenter, h]
      · rw [List.find?_cons_of_neg _ (by simp [h])]
        simp [get_vcenter, h, ih]
  · simp [get_vcenter]

/-! ### C9 -/

/-- Fully-populated registry: client set, all handles resolved, one user
    href recorded. -/
def stFull : EnvState :=
  ⟨true, some "hp", some "p1", some "ho", some "hov", some "ha",
   [("catalog_author", "hu")]⟩

/-- C9 counterexample: after `cleanup` on a fully-populated registry the
    per-user href map still holds its entry, so cleanup does not clear
    every stored resource handle back to unset as the claim states. -/
theorem cleanup_keeps_user_map :
    (cleanup stFull).user_href_for_user_names = [("catalog_author", "hu")] ∧
    (cleanup stFull).sys_admin_client = false ∧
    (cleanup stFull).org_href = none := by decide

/-- C9 (amended): `cleanup` never touches the per-user href map; when the
    sys-admin client is set it clears the client and the five href/name
    variables; when the client is unset it clears nothing at all. -/
theorem cleanup_clears_all_but_user_map (s : EnvState) :
    (cleanup s).user_href_for_user_names = s.user_href_for_user_names ∧
    (s.sys_admin_client = true →
      cleanup s = { s with sys_admin_client := false, pvdc_href := none,
                           pvdc_name := none, org_href := none,
                           ovdc_href := none, vapp_href := none }) ∧
    (s.sys_admin_client = false → cleanup s = s) := by
  unfold cleanup
  by_cases h : s.sys_admin_client <;> simp [h]

/-- Witness for C9 (amended) at a populated registry and at the initial
    registry. -/
theorem cleanup_clears_all_but_user_map_witness :
    cleanup stFull = { stFull with sys_admin_client := false, pvdc_href := none,
                                   pvdc_name := none, org_href := none,
                                   ovdc_href := none, vapp_href := none } ∧
    cleanup initState = initState :=
  ⟨(cleanup_clears_all_but_user_map stFull).2.1 rfl,
   (cleanup_clears_all_but_user_map initState).2.2 rfl⟩

/-! ### C8 -/

/-- C8: with the wildcard sentinel and a non-empty listing, `create_pvdc`
    records the first listed pVDC and logs the default choice, and the
    netpool lookup returns the first listed netpool and logs the default
    choice; neither issues a creation call. -/
theorem wildcard_takes_first (cfg : Config) (w : Remote) (s : EnvState)
    (r0 : ResourceRef) (rest : List ResourceRef) :
    (cfg.default_pvdc_name = "*" → w.pvdcs = r0 :: rest →
      create_pvdc cfg w s =
        ⟨{ basic_check s with pvdc_href := some r0.href, pvdc_name := some r0.name },
         w,
         [Call.listCall "pvdc",
          Call.logDebug ("Defaulting to first pvdc in the system viz." ++ r0.name)],
         none⟩) ∧
    (cfg.default_netpool_name = "*" → w.netpools = r0 :: rest →
      get_netpool_name_to_use cfg w =
        ([Call.listCall "netpool",
          Call.logDebug ("Using first netpool in system viz. " ++ r0.name)],
         Except.ok r0.name)) := by
  constructor
  · intro h1 h2
    simp [create_pvdc, h1, pvdc_default, h2]
  · intro h1 h2
    simp [get_netpool_name_to_use, h1, h2]

/-- The two-element listing of the spec example, as pVDCs and netpools. -/
def wAB : Remote :=
  { emptyRemote with pvdcs := [⟨"A", "hA"⟩, ⟨"B", "hB"⟩],
                     netpools := [⟨"A", "hA"⟩, ⟨"B", "hB"⟩] }

/-- Configuration requesting the wildcard pVDC and netpool. -/
def cfgStar : Config := ⟨"vc1", "*", "o1", "v1", "*", "n1", "c1", "t1", "a1"⟩

/-- Witness for C8: on the listing `[{A},{B}]` with desired name `*`, the
    first descriptor `{A}` is returned and the default choice is logged. -/
theorem wildcard_takes_first_witness :
    create_pvdc cfgStar wAB initState =
      ⟨{ basic_check initState with pvdc_href := some "hA", pvdc_name := some "A" },
       wAB,
       [Call.listCall "pvdc",
        Call.logDebug ("Defaulting to first pvdc in the system viz." ++ "A")],
       none⟩ ∧
    get_netpool_name_to_use cfgStar wAB =
      ([Call.listCall "netpool",
        Call.logDebug ("Using first netpool in system viz. " ++ "A")],
       Except.ok "A") :=
  ⟨(wildcard_takes_first cfgStar wAB initState ⟨"A", "hA"⟩ [⟨"B", "hB"⟩]).1 rfl rfl,
   (wildcard_takes_first cfgStar wAB initState ⟨"A", "hA"⟩ [⟨"B", "hB"⟩]).2 rfl rfl⟩

/-! ### C4 -/

/-- C4 counterexample: on an empty listing, `create_pvdc` and the netpool
    lookup fail with `IndexError` (from `xs[0]` on an empty list), not
    with a domain NotFoundError carrying a message. -/
theorem empty_listing_index_error :
    (create_pvdc cfgA emptyRemote initState).err = some PyError.indexError ∧
    (get_netpool_name_to_use cfgA emptyRemote).2 =
      Except.error PyError.indexError := ⟨rfl, rfl⟩

/-- C4 (amended): for every configuration, an empty pVDC listing makes
    `create_pvdc` raise `IndexError`, and an empty netpool listing makes
    the netpool lookup raise `IndexError` — the `IndexError` constructor,
    not the domain `exception` constructor. -/
theorem empty_listing_raises_index_error (cfg : Config) (w : Remote) (s : EnvState) :
    (w.pvdcs = [] → (create_pvdc cfg w s).err = some PyError.indexError) ∧
    (w.netpools = [] → (get_netpool_name_to_use cfg w).2 =
      Except.error PyError.indexError) := by
  constructor
  · intro h
    by_cases hs : cfg.default_pvdc_name = "*" <;>
      simp [create_pvdc, hs, pvdc_default, h, findCI]
  · intro h
    by_cases hs : cfg.default_netpool_name = "*" <;>
      simp [get_netpool_name_to_use, hs, h, findCI]

/-- Witness for C4 (amended) at an empty remote. -/
theorem empty_listing_raises_index_error_witness :
    (create_pvdc cfgA emptyRemote initState).err = some PyError.indexError ∧
    (get_netpool_name_to_use cfgA emptyRemote).2 =
      Except.error PyError.indexError :=
  ⟨(empty_listing_raises_index_error cfgA emptyRemote initState).1 rfl,
   (empty_listing_raises_index_error cfgA emptyRemote initState).2 rfl⟩

/-! ### C5 -/

/-- C5 counterexample: when the vApp lookup raises an exception whose
    message does not contain `not found`, `instantiate_vapp` returns
    normally — the error is swallowed by the `except` clause, not
    re-raised: no error escapes, no creation call is made, and the vApp
    href stays unset. -/
theorem vapp_lookup_error_swallowed :
    instantiate_vapp (some "permission denied") cfgA emptyRemote stOvdc =
      ⟨basic_check stOvdc, emptyRemote, [Call.listCall "vapp"], none⟩ ∧
    (instantiate_vapp (some "permission denied") cfgA emptyRemote stOvdc).s.vapp_href
      = none := by
  constructor
  · rfl
  · rfl

/-- C5 (amended): an exception raised by the vApp lookup whose message
    does not contain `not found` is silently suppressed by
    `instantiate_vapp`: the step returns without error, issues no
    creation call, and leaves the vApp href as it was; a message that
    does contain `not found` instead routes to the creation branch. -/
theorem vapp_lookup_error_suppressed (cfg : Config) (w : Remote) (s : EnvState)
    (msg h : String) (h1 : s.ovdc_href = some h) :
    (pyIn "not found" msg = false →
      instantiate_vapp (some msg) cfg w s =
        ⟨basic_check s, w, [Call.listCall "vapp"], none⟩) ∧
    (pyIn "not found" msg = true →
      Call.createCall "vapp" cfg.default_vapp_name ∈
        (instantiate_vapp (some msg) cfg w s).tr) := by
  constructor
  · intro h2
    simp [instantiate_vapp, basic_check, h1, get_vapp, pyStr, h2]
  · intro h2
    simp only [instantiate_vapp, basic_check, h1, get_vapp, pyStr, h2]
    cases hw : wait_for_success { w with vapps := w.vapps ++
        [⟨cfg.default_vapp_name, mkHref "vapp" cfg.default_vapp_name⟩] } with
    | mk e trw => cases e <;> simp [hw]

/-- Witness for C5 (amended): a lookup failure reading `permission
    denied` is suppressed; one reading `... not found` leads to creation. -/
theorem vapp_lookup_error_suppressed_witness :
    instantiate_vapp (some "permission denied") cfgA emptyRemote stOvdc =
      ⟨basic_check stOvdc, emptyRemote, [Call.listCall "vapp"], none⟩ ∧
    Call.createCall "vapp" "a1" ∈
      (instantiate_vapp (some "vapp a1 not found") cfgA emptyRemote stOvdc).tr :=
  ⟨(vapp_lookup_error_suppressed cfgA emptyRemote stOvdc
      "permission denied" "hov" rfl).1 (by decide),
   (vapp_lookup_error_suppressed cfgA emptyRemote stOvdc
      "vapp a1 not found" "hov" rfl).2 (by decide)⟩

/-! ### C3 -/

/-- Configuration asking for catalog `b`; the remote lists catalogs
    `[{A},{B}]`. -/
def cfgCatB : Config := ⟨"vc1", "p1", "o1", "v1", "np1", "n1", "b", "t1", "a1"⟩

/-- Remote listing catalogs `A` and `B`. -/
def wCatAB : Remote :=
  { emptyRemote with catalogs := [⟨"A", "hA"⟩, ⟨"B", "hB"⟩] }

/-- C3 counterexample: on listing `[{A},{B}]` with desired name `b`, a
    case-insensitive locator would select `{B}` (and `findCI` does), but
    `create_catalog` compares names exactly, misses `{B}`, and issues a
    creation call instead of reusing the match — so the catalog kind does
    not match case-insensitively. -/
theorem catalog_locator_case_sensitive :
    findCI wCatAB.catalogs "b" = some ⟨"B", "hB"⟩ ∧
    findExact wCatAB.catalogs "b" = none ∧
    Call.createCall "catalog" "b" ∈ (create_catalog cfgCatB wCatAB stOrg).tr := by
  refine ⟨rfl, rfl, ?_⟩
  decide

/-- C3 (amended): the locators of the pVDC, org, user, org-VDC, network,
    netpool, catalog-item and vCenter steps (`findCI`, and the
    case-insensitive user filter) select a descriptor whose name matches
    the desired name case-insensitively — on `[{A},{B}]` with desired
    name `b` they select `{B}` — while the catalog step selects by exact
    string equality (`findExact`). -/
theorem locator_case_insensitive_except_catalog :
    (∀ (l : List ResourceRef) (n : String) (r : ResourceRef),
        findCI l n = some r → pyLower r.name = pyLower n) ∧
    findCI [⟨"A", "hA"⟩, ⟨"B", "hB"⟩] "b" = some ⟨"B", "hB"⟩ ∧
    (∀ (l : List ResourceRef) (n : String) (r : ResourceRef),
        findExact l n = some r → r.name = n) := by
  refine ⟨?_, by decide, ?_⟩
  · intro l n r h
    induction l with
    | nil => exact absurd h (by simp [findCI])
    | cons a as ih =>
      by_cases ha : pyLower a.name = pyLower n
      · simp only [findCI, if_pos ha] at h
        cases h
        exact ha
      · simp only [findCI, if_neg ha] at h
        exact ih h
  · intro l n r h
    induction l with
    | nil => exact absurd h (by simp [findExact])
    | cons a as ih =>
      by_cases ha : a.name = n
      · simp only [findExact, if_pos ha] at h
        cases h
        exact ha
      · simp only [findExact, if_neg ha] at h
        exact ih h

/-- Witness for C3 (amended): the descriptor `{B}` selected by `findCI`
    matches the desired name `b` case-insensitively, and a descriptor
    selected by `findExact` carries exactly the desired name. -/
theorem locator_case_insensitive_except_catalog_witness :
    pyLower "B" = pyLower "b" ∧ (ResourceRef.mk "b" "h").name = "b" :=
  ⟨locator_case_insensitive_except_catalog.1 [⟨"B", "hB"⟩] "b" ⟨"B", "hB"⟩
     (by decide),
   locator_case_insensitive_except_catalog.2.2 [⟨"b", "h"⟩] "b" ⟨"b", "h"⟩
     (by decide)⟩

/-! ### C2 -/

/-- C2: each step that needs a parent handle raises, when that handle is
    unset, a domain exception whose message names the unmet dependency,
    with an empty remote-call trace — so before any listing or creation
    call: `create_users` and `create_ovdc` on the org href, `create_ovdc`
    on the pVDC name, `create_ovdc_network` and `instantiate_vapp` on the
    org-VDC href. -/
theorem missing_dependency_fails_fast (cfg : Config) (w : Remote) (s : EnvState) :
    (s.org_href = none →
      create_users cfg w s =
        ⟨basic_check s, w, [],
         some (PyError.exception (missingMsg "Org" cfg.default_org_name))⟩) ∧
    (s.org_href = none →
      create_ovdc cfg w s =
        ⟨basic_check s, w, [],
         some (PyError.exception (missingMsg "Org" cfg.default_org_name))⟩) ∧
    (∀ oh, s.org_href = some oh → s.pvdc_name = none →
      create_ovdc cfg w s =
        ⟨basic_check s, w, [],
         some (PyError.exception (missingMsg "pVDC" cfg.default_pvdc_name))⟩) ∧
    (s.ovdc_href = none →
      create_ovdc_network cfg w s =
        ⟨basic_check s, w, [],
         some (PyError.exception (missingMsg "OrgVDC" cfg.default_ovdc_name))⟩) ∧
    (s.ovdc_href = none →
      instantiate_vapp none cfg w s =
        ⟨basic_check s, w, [],
         some (PyError.exception (missingMsg "OVDC" cfg.default_ovdc_name))⟩) := by
  refine ⟨?_, ?_, ?_, ?_, ?_⟩
  · intro h
    simp [create_users, basic_check, h]
  · intro h
    simp [create_ovdc, basic_check, h]
  · intro oh h1 h2
    simp [create_ovdc, basic_check, h1, h2]
  · intro h
    simp [create_ovdc_network, basic_check, h]
  · intro h
    simp [instantiate_vapp, basic_check, h]

/-- Witness for C2 at concrete empty registries. -/
theorem missing_dependency_fails_fast_witness :
    create_users cfgA emptyRemote initState =
      ⟨basic_check initState, emptyRemote, [],
       some (PyError.exception (missingMsg "Org" "o1"))⟩ ∧
    create_ovdc cfgA emptyRemote initState =
      ⟨basic_check initState, emptyRemote, [],
       some (PyError.exception (missingMsg "Org" "o1"))⟩ ∧
    create_ovdc cfgA emptyRemote stOrg =
      ⟨basic_check stOrg, emptyRemote, [],
       some (PyError.exception (missingMsg "pVDC" "p1"))⟩ ∧
    create_ovdc_network cfgA emptyRemote initState =
      ⟨basic_check initState, emptyRemote, [],
       some (PyError.exception (missingMsg "OrgVDC" "v1"))⟩ ∧
    instantiate_vapp none cfgA emptyRemote initState =
      ⟨basic_check initState, emptyRemote, [],
       some (PyError.exception (missingMsg "OVDC" "v1"))⟩ :=
  ⟨(missing_dependency_fails_fast cfgA emptyRemote initState).1 rfl,
   (missing_dependency_fails_fast cfgA emptyRemote initState).2.1 rfl,
   (missing_dependency_fails_fast cfgA emptyRemote stOrg).2.2.1 "ho" rfl rfl,
   (missing_dependency_fails_fast cfgA emptyRemote initState).2.2.2.1 rfl,
   (missing_dependency_fails_fast cfgA emptyRemote initState).2.2.2.2 rfl⟩

/-! ### C7 -/

/-- Remote with role records for every role except `Catalog Author`, and
    no users: processing the first role fails, every later role could
    succeed. -/
def wNoCatalogAuthorRole : Remote :=
  { emptyRemote with roles :=
      [⟨"Console Access Only", "hr2"⟩, ⟨"Organization Administrator", "hr3"⟩,
       ⟨"vApp Author", "hr4"⟩, ⟨"vApp User", "hr5"⟩] }

/-- C7 counterexample: the failure while processing the first role
    (`Catalog Author`: user absent, role record missing) aborts
    `create_users` — no further role is listed or created (the trace
    stops at the first listing call and no user exists afterwards), even
    though each of the four remaining roles has its role record and could
    have been processed. -/
theorem role_failure_aborts_remaining_roles :
    (create_users cfgA wNoCatalogAuthorRole stOrg).err =
      some (PyError.exception ("role " ++ "Catalog Author" ++ " not found")) ∧
    (create_users cfgA wNoCatalogAuthorRole stOrg).tr = [Call.listCall "user"] ∧
    (create_users cfgA wNoCatalogAuthorRole stOrg).w.users = [] := by
  refine ⟨rfl, rfl, rfl⟩

/-- C7 (amended): each role is checked-then-created depending only on the
    org handle, but the roles are processed sequentially with no per-role
    error handling: a failure on the first role (its user absent and its
    role lookup failing) makes the whole step raise after a single
    listing call, so none of the remaining roles is processed. -/
theorem role_failure_aborts_step (cfg : Config) (w : Remote) (s : EnvState)
    (h1 : s.org_href.isSome)
    (h2 : w.users.filter (fun u => pyLower u.name = pyLower "catalog_author") = [])
    (h3 : findExact w.roles "Catalog Author" = none) :
    create_users cfg w s =
      ⟨basic_check s, w, [Call.listCall "user"],
       some (PyError.exception ("role " ++ "Catalog Author" ++ " not found"))⟩ := by
  obtain ⟨oh, ho⟩ := Option.isSome_iff_exists.mp h1
  simp [create_users, basic_check, ho, user_name_for_roles, create_users_loop, h2, h3]

/-- Witness for C7 (amended). -/
theorem role_failure_aborts_step_witness :
    create_users cfgA wNoCatalogAuthorRole stOrg =
      ⟨basic_check stOrg, wNoCatalogAuthorRole, [Call.listCall "user"],
       some (PyError.exception ("role " ++ "Catalog Author" ++ " not found"))⟩ :=
  role_failure_aborts_step cfgA wNoCatalogAuthorRole stOrg (by decide) rfl rfl

/-! ### C6 -/

/-- C6 (code bug): with no vCenter attached, `attach_vc` issues the
    attach (creation) call and returns without error and without ever
    handing a task to the Task Monitor — the source returns right after
    `platform.attach_vcenter(...)` with the comment
    `TODO(VCDA-603) wait for async task to finish`, so the sequence
    proceeds regardless of the attach task outcome, contradicting the
    claim that every creating step waits for SUCCESS. -/
theorem attach_vc_creates_without_task_wait :
    (attach_vc cfgA emptyRemote initState).tr =
      [Call.listCall "vcenter", Call.createCall "vcenter" "vc1"] ∧
    (attach_vc cfgA emptyRemote initState).err = none ∧
    Call.taskWait ∉ (attach_vc cfgA emptyRemote initState).tr := by
  refine ⟨rfl, rfl, ?_⟩
  decide

/-! ### Infrastructure for C1 (idempotence of the provisioning sequence) -/

theorem findCI_append_of_isSome {l : List ResourceRef} {n : String}
    (l2 : List ResourceRef) (h : (findCI l n).isSome) :
    findCI (l ++ l2) n = findCI l n := by
  induction l with
  | nil => simp [findCI] at h
  | cons r rs ih =>
    by_cases hr : pyLower r.name = pyLower n
    · simp [findCI, hr]
    · simp only [findCI, if_neg hr] at h ⊢
      exact ih h

theorem findCI_append_of_none {l : List ResourceRef} {n : String}
    (l2 : List ResourceRef) (h : findCI l n = none) :
    findCI (l ++ l2) n = findCI l2 n := by
  induction l with
  | nil => simp
  | cons r rs ih =>
    by_cases hr : pyLower r.name = pyLower n
    · simp [findCI, hr] at h
    · simp only [findCI, if_neg hr] at h ⊢
      exact ih h

theorem findCI_self_append (l : List ResourceRef) (n h : String) :
    (findCI (l ++ [⟨n, h⟩]) n).isSome := by
  cases hf : findCI l n with
  | none => rw [findCI_append_of_none _ hf]; simp [findCI]
  | some r => rw [findCI_append_of_isSome _ (by simp [hf])]; simp [hf]

theorem findExact_append_of_isSome {l : List ResourceRef} {n : String}
    (l2 : List ResourceRef) (h : (findExact l n).isSome) :
    findExact (l ++ l2) n = findExact l n := by
  induction l with
  | nil => simp [findExact] at h
  | cons r rs ih =>
    by_cases hr : r.name = n
    · simp [findExact, hr]
    · simp only [findExact, if_neg hr] at h ⊢
      exact ih h

theorem findExact_append_of_none {l : List ResourceRef} {n : String}
    (l2 : List ResourceRef) (h : findExact l n = none) :
    findExact (l ++ l2) n = findExact l2 n := by
  induction l with
  | nil => simp
  | cons r rs ih =>
    by_cases hr : r.name = n
    · simp [findExact, hr] at h
    · simp only [findExact, if_neg hr] at h ⊢
      exact ih h

theorem findExact_self_append (l : List ResourceRef) (n h : String) :
    (findExact (l ++ [⟨n, h⟩]) n).isSome := by
  cases hf : findExact l n with
  | none => rw [findExact_append_of_none _ hf]; simp [findExact]
  | some r => rw [findExact_append_of_isSome _ (by simp [hf])]; simp [hf]

/-- One remote state extends another: every per-kind listing of the first
    is a prefix of the corresponding listing of the second.  Provisioning
    steps only ever append newly created resources, so every step's
    output extends its input. -/
def WExt (w w2 : Remote) : Prop :=
  w.vcenters <+: w2.vcenters ∧ w.pvdcs <+: w2.pvdcs ∧ w.orgs <+: w2.orgs ∧
  w.users <+: w2.users ∧ w.roles <+: w2.roles ∧ w.vdcs <+: w2.vdcs ∧
  w.netpools <+: w2.netpools ∧ w.networks <+: w2.networks ∧
  w.catalogs <+: w2.catalogs ∧ w.catalog_items <+: w2.catalog_items ∧
  w.vapps <+: w2.vapps

theorem WExt.refl (w : Remote) : WExt w w :=
  ⟨List.prefix_rfl, List.prefix_rfl, List.prefix_rfl, List.prefix_rfl,
   List.prefix_rfl, List.prefix_rfl, List.prefix_rfl, List.prefix_rfl,
   List.prefix_rfl, List.prefix_rfl, List.prefix_rfl⟩

theorem WExt.trans {w1 w2 w3 : Remote} (a : WExt w1 w2) (b : WExt w2 w3) :
    WExt w1 w3 :=
  ⟨a.1.trans b.1, a.2.1.trans b.2.1, a.2.2.1.trans b.2.2.1,
   a.2.2.2.1.trans b.2.2.2.1, a.2.2.2.2.1.trans b.2.2.2.2.1,
   a.2.2.2.2.2.1.trans b.2.2.2.2.2.1,
   a.2.2.2.2.2.2.1.trans b.2.2.2.2.2.2.1,
   a.2.2.2.2.2.2.2.1.trans b.2.2.2.2.2.2.2.1,
   a.2.2.2.2.2.2.2.2.1.trans b.2.2.2.2.2.2.2.2.1,
   a.2.2.2.2.2.2.2.2.2.1.trans b.2.2.2.2.2.2.2.2.2.1,
   a.2.2.2.2.2.2.2.2.2.2.trans b.2.2.2.2.2.2.2.2.2.2⟩

theorem findCI_isSome_mono {l l2 : List ResourceRef} {n : String}
    (h : (findCI l n).isSome) (hp : l <+: l2) : (findCI l2 n).isSome := by
  obtain ⟨t, rfl⟩ := hp
  rw [findCI_append_of_isSome _ h]
  exact h

theorem findExact_isSome_mono {l l2 : List ResourceRef} {n : String}
    (h : (findExact l n).isSome) (hp : l <+: l2) : (findExact l2 n).isSome := by
  obtain ⟨t, rfl⟩ := hp
  rw [findExact_append_of_isSome _ h]
  exact h

theorem filter_ne_nil_mono {l l2 : List ResourceRef} {p : ResourceRef → Bool}
    (h : l.filter p ≠ []) (hp : l <+: l2) : l2.filter p ≠ [] := by
  obtain ⟨t, rfl⟩ := hp
  rw [List.filter_append]
  exact fun hc => h (List.append_eq_nil.mp hc).1

theorem ne_nil_mono {l l2 : List ResourceRef}
    (h : l ≠ []) (hp : l <+: l2) : l2 ≠ [] := by
  obtain ⟨t, rfl⟩ := hp
  exact fun hc => h (List.append_eq_nil.mp hc).1

/-- `attach_vc` finds the configured vCenter. -/
def SVc (cfg : Config) (w : Remote) : Prop :=
  (findCI w.vcenters cfg.vcenter_host_name).isSome

/-- `create_pvdc` resolves without error and without hitting the
    (unimplemented) creation path: either a non-wildcard name is listed,
    or the listing is non-empty so the defaulting branch succeeds. -/
def SPvdc (cfg : Config) (w : Remote) : Prop :=
  (cfg.default_pvdc_name ≠ "*" ∧ (findCI w.pvdcs cfg.default_pvdc_name).isSome) ∨
  w.pvdcs ≠ []

/-- `create_org` finds the configured org. -/
def SOrg (cfg : Config) (w : Remote) : Prop :=
  (findCI w.orgs cfg.default_org_name).isSome

/-- Every role's fixed username is already present among the org's users. -/
def SUsers (w : Remote) : Prop :=
  ∀ p ∈ user_name_for_roles,
    w.users.filter (fun u => pyLower u.name = pyLower p.2) ≠ []

/-- `create_ovdc` finds the configured org VDC. -/
def SOvdc (cfg : Config) (w : Remote) : Prop :=
  (findCI w.vdcs cfg.default_ovdc_name).isSome

/-- `create_ovdc_network` finds the configured network. -/
def SNet (cfg : Config) (w : Remote) : Prop :=
  (findCI w.networks cfg.default_ovdc_network_name).isSome

/-- `create_catalog` finds the configured catalog (by exact name). -/
def SCat (cfg : Config) (w : Remote) : Prop :=
  (findExact w.catalogs cfg.default_catalog_name).isSome

/-- `upload_template` finds the configured template among catalog items. -/
def STpl (cfg : Config) (w : Remote) : Prop :=
  (findCI w.catalog_items cfg.default_template_file_name).isSome

/-- `instantiate_vapp` finds the configured vApp. -/
def SVapp (cfg : Config) (w : Remote) : Prop :=
  (findExact w.vapps cfg.default_vapp_name).isSome

/-- The remote state is fully provisioned for the configuration: every
    step of the sequence resolves its resource without creating. -/
def Settled (cfg : Config) (w : Remote) : Prop :=
  SVc cfg w ∧ SPvdc cfg w ∧ SOrg cfg w ∧ SUsers w ∧ SOvdc cfg w ∧
  SNet cfg w ∧ SCat cfg w ∧ STpl cfg w ∧ SVapp cfg w

theorem Settled_mono {cfg : Config} {w w2 : Remote}
    (h : Settled cfg w) (he : WExt w w2) : Settled cfg w2 := by
  obtain ⟨h1, h2, h3, h4, h5, h6, h7, h8, h9⟩ := h
  obtain ⟨e1, e2, e3, e4, e5, e6, e7, e8, e9, e10, e11⟩ := he
  refine ⟨findCI_isSome_mono h1 e1, ?_, findCI_isSome_mono h3 e3,
          fun p hp => filter_ne_nil_mono (h4 p hp) e4,
          findCI_isSome_mono h5 e6, findCI_isSome_mono h6 e8,
          findExact_isSome_mono h7 e9, findCI_isSome_mono h8 e10,
          findExact_isSome_mono h9 e11⟩
  cases h2 with
  | inl h2 => exact Or.inl ⟨h2.1, findCI_isSome_mono h2.2 e2⟩
  | inr h2 => exact Or.inr (ne_nil_mono h2 e2)

theorem wext_app_vcenters (w : Remote) (t : List ResourceRef) :
    WExt w { w with vcenters := w.vcenters ++ t } :=
  ⟨List.prefix_append _ _, List.prefix_rfl, List.prefix_rfl, List.prefix_rfl,
   List.prefix_rfl, List.prefix_rfl, List.prefix_rfl, List.prefix_rfl,
   List.prefix_rfl, List.prefix_rfl, List.prefix_rfl⟩

theorem wext_app_orgs (w : Remote) (t : List ResourceRef) :
    WExt w { w with orgs := w.orgs ++ t } :=
  ⟨List.prefix_rfl, List.prefix_rfl, List.prefix_append _ _, List.prefix_rfl,
   List.prefix_rfl, List.prefix_rfl, List.prefix_rfl, List.prefix_rfl,
   List.prefix_rfl, List.prefix_rfl, List.prefix_rfl⟩

theorem wext_app_users (w : Remote) (t : List ResourceRef) :
    WExt w { w with users := w.users ++ t } :=
  ⟨List.prefix_rfl, List.prefix_rfl, List.prefix_rfl, List.prefix_append _ _,
   List.prefix_rfl, List.prefix_rfl, List.prefix_rfl, List.prefix_rfl,
   List.prefix_rfl, List.prefix_rfl, List.prefix_rfl⟩

theorem wext_app_vdcs (w : Remote) (t : List ResourceRef) :
    WExt w { w with vdcs := w.vdcs ++ t } :=
  ⟨List.prefix_rfl, List.prefix_rfl, List.prefix_rfl, List.prefix_rfl,
   List.prefix_rfl, List.prefix_append _ _, List.prefix_rfl, List.prefix_rfl,
   List.prefix_rfl, List.prefix_rfl, List.prefix_rfl⟩

theorem wext_app_networks (w : Remote) (t : List ResourceRef) :
    WExt w { w with networks := w.networks ++ t } :=
  ⟨List.prefix_rfl, List.prefix_rfl, List.prefix_rfl, List.prefix_rfl,
   List.prefix_rfl, List.prefix_rfl, List.prefix_rfl, List.prefix_append _ _,
   List.prefix_rfl, List.prefix_rfl, List.prefix_rfl⟩

theorem wext_app_catalogs (w : Remote) (t : List ResourceRef) :
    WExt w { w with catalogs := w.catalogs ++ t } :=
  ⟨List.prefix_rfl, List.prefix_rfl, List.prefix_rfl, List.prefix_rfl,
   List.prefix_rfl, List.prefix_rfl, List.prefix_rfl, List.prefix_rfl,
   List.prefix_append _ _, List.prefix_rfl, List.prefix_rfl⟩

theorem wext_app_catalog_items (w : Remote) (t : List ResourceRef) :
    WExt w { w with catalog_items := w.catalog_items ++ t } :=
  ⟨List.prefix_rfl, List.prefix_rfl, List.prefix_rfl, List.prefix_rfl,
   List.prefix_rfl, List.prefix_rfl, List.prefix_rfl, List.prefix_rfl,
   List.prefix_rfl, List.prefix_append _ _, List.prefix_rfl⟩

theorem wext_app_vapps (w : Remote) (t : List ResourceRef) :
    WExt w { w with vapps := w.vapps ++ t } :=
  ⟨List.prefix_rfl, List.prefix_rfl, List.prefix_rfl, List.prefix_rfl,
   List.prefix_rfl, List.prefix_rfl, List.prefix_rfl, List.prefix_rfl,
   List.prefix_rfl, List.prefix_rfl, List.prefix_append _ _⟩

theorem attach_vc_wext (cfg : Config) (w : Remote) (s : EnvState) :
    WExt w (attach_vc cfg w s).w := by
  unfold attach_vc
  cases h : findCI w.vcenters cfg.vcenter_host_name with
  | none => simp only [h]; exact wext_app_vcenters w _
  | some r => simp only [h]; exact WExt.refl w

theorem create_pvdc_w (cfg : Config) (w : Remote) (s : EnvState) :
    (create_pvdc cfg w s).w = w := by
  unfold create_pvdc pvdc_default
  by_cases h : cfg.default_pvdc_name = "*"
  · simp only [if_pos h]
    cases w.pvdcs <;> rfl
  · simp only [if_neg h]
    cases hf : findCI w.pvdcs cfg.default_pvdc_name with
    | some r => rfl
    | none =>
      simp only [hf]
      cases w.pvdcs <;> rfl

theorem create_org_wext (cfg : Config) (w : Remote) (s : EnvState) :
    WExt w (create_org cfg w s).w := by
  unfold create_org
  cases h : findCI w.orgs cfg.default_org_name with
  | some r => simp only [h]; exact WExt.refl w
  | none =>
    simp only [h]
    cases h2 : findCILast
        (w.orgs ++ [⟨cfg.default_org_name, mkHref "org" cfg.default_org_name⟩])
        cfg.default_org_name <;>
      · simp only [h2]
        exact wext_app_orgs w _

theorem create_users_loop_wext (cfg : Config) (roles : List (String × String))
    (w : Remote) (s : EnvState) : WExt w (create_users_loop cfg roles w s).w := by
  induction roles generalizing w s with
  | nil => exact WExt.refl w
  | cons p rest ih =>
    obtain ⟨roleName, userName⟩ := p
    unfold create_users_loop
    cases hf : w.users.filter (fun u => pyLower u.name = pyLower userName) with
    | cons u0 us => simp only [hf]; exact ih w _
    | nil =>
      cases hr : findExact w.roles roleName with
      | none => simp only [hf, hr]; exact WExt.refl w
      | some role =>
        simp only [hf, hr]
        exact (wext_app_users w _).trans (ih _ _)

theorem create_users_wext (cfg : Config) (w : Remote) (s : EnvState) :
    WExt w (create_users cfg w s).w := by
  unfold create_users
  cases h : (basic_check s).org_href with
  | none => simp only [h]; exact WExt.refl w
  | some oh => simp only [h]; exact create_users_loop_wext cfg _ w _

theorem create_ovdc_wext (cfg : Config) (w : Remote) (s : EnvState) :
    WExt w (create_ovdc cfg w s).w := by
  unfold create_ovdc
  cases h1 : (basic_check s).org_href with
  | none => simp only [h1]; exact WExt.refl w
  | some oh =>
    cases h2 : (basic_check s).pvdc_name with
    | none => simp only [h1, h2]; exact WExt.refl w
    | some pn =>
      simp only [h1, h2]
      cases h3 : findCI w.vdcs cfg.default_ovdc_name with
      | some r => simp only [h3]; exact WExt.refl w
      | none =>
        simp only [h3]
        cases h4 : get_netpool_name_to_use cfg w with
        | mk tr1 res =>
          cases res with
          | error e => simp only [h4]; exact WExt.refl w
          | ok np =>
            simp only [h4]
            cases h5 : wait_for_success
                { w with vdcs := w.vdcs ++
                    [⟨cfg.default_ovdc_name, mkHref "vdc" cfg.default_ovdc_name⟩] } with
            | mk e trw =>
              cases e with
              | some e2 => simp only [h5]; exact wext_app_vdcs w _
              | none =>
                simp only [h5]
                cases h6 : findCILast
                    (w.vdcs ++ [⟨cfg.default_ovdc_name,
                                 mkHref "vdc" cfg.default_ovdc_name⟩])
                    cfg.default_ovdc_name <;>
                  · simp only [h6]
                    exact wext_app_vdcs w _

theorem create_ovdc_network_wext (cfg : Config) (w : Remote) (s : EnvState) :
    WExt w (create_ovdc_network cfg w s).w := by
  unfold create_ovdc_network
  cases h1 : (basic_check s).ovdc_href with
  | none => simp only [h1]; exact WExt.refl w
  | some oh =>
    simp only [h1]
    cases h2 : findCI w.networks cfg.default_ovdc_network_name with
    | some r => simp only [h2]; exact WExt.refl w
    | none =>
      simp only [h2]
      cases h3 : wait_for_success
          { w with networks := w.networks ++
              [⟨cfg.default_ovdc_network_name,
                mkHref "network" cfg.default_ovdc_network_name⟩] } with
      | mk e trw => exact wext_app_networks w _

theorem create_catalog_wext (cfg : Config) (w : Remote) (s : EnvState) :
    WExt w (create_catalog cfg w s).w := by
  unfold create_catalog
  cases h1 : (basic_check s).org_href with
  | none => simp only [h1]; exact WExt.refl w
  | some oh =>
    simp only [h1]
    cases h2 : findExact w.catalogs cfg.default_catalog_name with
    | some r => simp only [h2]; exact WExt.refl w
    | none =>
      simp only [h2]
      cases h3 : wait_for_success
          { w with catalogs := w.catalogs ++
              [⟨cfg.default_catalog_name,
                mkHref "catalog" cfg.default_catalog_name⟩] } with
      | mk e trw => exact wext_app_catalogs w _

theorem upload_template_wext (cfg : Config) (w : Remote) (s : EnvState) :
    WExt w (upload_template cfg w s).w := by
  unfold upload_template
  cases h1 : (basic_check s).org_href with
  | none => simp only [h1]; exact WExt.refl w
  | some oh =>
    simp only [h1]
    cases h2 : findCI w.catalog_items cfg.default_template_file_name with
    | some r => simp only [h2]; exact WExt.refl w
    | none =>
      simp only [h2]
      cases h3 : wait_for_success
          { w with catalog_items := w.catalog_items ++
              [⟨cfg.default_template_file_name,
                mkHref "catalog_item" cfg.default_template_file_name⟩] } with
      | mk e trw => exact wext_app_catalog_items w _

theorem instantiate_vapp_wext (fault : Option String) (cfg : Config)
    (w : Remote) (s : EnvState) : WExt w (instantiate_vapp fault cfg w s).w := by
  unfold instantiate_vapp
  cases h1 : (basic_check s).ovdc_href with
  | none => simp only [h1]; exact WExt.refl w
  | some oh =>
    simp only [h1]
    cases h2 : get_vapp fault w cfg.default_vapp_name with
    | ok r => simp only [h2]; exact WExt.refl w
    | error e =>
      simp only [h2]
      by_cases h3 : pyIn "not found" (pyStr e) = true
      · simp only [h3, if_true]
        cases h4 : wait_for_success
            { w with vapps := w.vapps ++
                [⟨cfg.default_vapp_name, mkHref "vapp" cfg.default_vapp_name⟩] } with
        | mk e2 trw =>
          cases e2 with
          | some e3 => simp only [h4]; exact wext_app_vapps w _
          | none => simp only [h4]; exact wext_app_vapps w _
      · simp only [eq_false_of_ne_true h3, if_false]
        exact WExt.refl w

theorem pyIn_append_right (n s t : String) (h : pyIn n t = true) :
    pyIn n (s ++ t) = true := by
  unfold pyIn at h ⊢
  rw [decide_eq_true_iff] at h ⊢
  obtain ⟨u, v, huv⟩ := h
  refine ⟨s.data ++ u, v, ?_⟩
  show s.data ++ u ++ n.data ++ v = (s ++ t).data
  have hst : (s ++ t).data = s.data ++ t.data := rfl
  rw [hst, ← huv]
  simp [List.append_assoc]

theorem attach_vc_estab (cfg : Config) (w : Remote) (s : EnvState) :
    SVc cfg (attach_vc cfg w s).w := by
  unfold attach_vc SVc
  cases h : findCI w.vcenters cfg.vcenter_host_name with
  | none => simp only [h]; exact findCI_self_append _ _ _
  | some r => simp only [h]; simp [h]

theorem create_pvdc_estab (cfg : Config) (w : Remote) (s : EnvState)
    (he : (create_pvdc cfg w s).err = none) : SPvdc cfg (create_pvdc cfg w s).w := by
  rw [create_pvdc_w]
  unfold create_pvdc pvdc_default at he
  by_cases h : cfg.default_pvdc_name = "*"
  · simp only [if_pos h] at he
    cases hp : w.pvdcs with
    | nil => rw [hp] at he; simp at he
    | cons r0 rest => exact Or.inr (by simp [hp])
  · simp only [if_neg h] at he
    cases hf : findCI w.pvdcs cfg.default_pvdc_name with
    | some r => exact Or.inl ⟨h, by simp [hf]⟩
    | none =>
      simp only [hf] at he
      cases hp : w.pvdcs with
      | nil => rw [hp] at he; simp at he
      | cons r0 rest => exact Or.inr (by simp [hp])

theorem create_org_estab (cfg : Config) (w : Remote) (s : EnvState) :
    SOrg cfg (create_org cfg w s).w := by
  unfold create_org SOrg
  cases h : findCI w.orgs cfg.default_org_name with
  | some r => simp only [h]; simp [h]
  | none =>
    simp only [h]
    cases h2 : findCILast
        (w.orgs ++ [⟨cfg.default_org_name, mkHref "org" cfg.default_org_name⟩])
        cfg.default_org_name <;>
      · simp only [h2]
        exact findCI_self_append _ _ _

theorem create_users_loop_estab (cfg : Config) (roles : List (String × String))
    (w : Remote) (s : EnvState)
    (he : (create_users_loop cfg roles w s).err = none) :
    ∀ p ∈ roles,
      (create_users_loop cfg roles w s).w.users.filter
        (fun u => pyLower u.name = pyLower p.2) ≠ [] := by
  induction roles generalizing w s with
  | nil => intro p hp; simp at hp
  | cons q rest ih =>
    obtain ⟨roleName, userName⟩ := q
    intro p hp
    unfold create_users_loop at he ⊢
    cases hf : w.users.filter (fun u => pyLower u.name = pyLower userName) with
    | cons u0 us =>
      simp only [hf] at he ⊢
      rcases List.mem_cons.mp hp with hq | hq
      · subst hq
        exact filter_ne_nil_mono (by simp [hf])
          (create_users_loop_wext cfg rest w _).2.2.2.1
      · exact ih w _ he p hq
    | nil =>
      cases hr : findExact w.roles roleName with
      | none => simp only [hf, hr] at he; exact absurd he (Option.some_ne_none _)
      | some role =>
        simp only [hf, hr] at he ⊢
        rcases List.mem_cons.mp hp with hq | hq
        · subst hq
          refine filter_ne_nil_mono ?_
            (create_users_loop_wext cfg rest _ _).2.2.2.1
          simp [List.filter_append]
        · exact ih _ _ he p hq

theorem create_users_estab (cfg : Config) (w : Remote) (s : EnvState)
    (he : (create_users cfg w s).err = none) :
    SUsers (create_users cfg w s).w := by
  unfold create_users at he ⊢
  cases h : (basic_check s).org_href with
  | none => simp only [h] at he; exact absurd he (Option.some_ne_none _)
  | some oh =>
    simp only [h] at he ⊢
    exact create_users_loop_estab cfg _ w _ he

theorem create_ovdc_estab (cfg : Config) (w : Remote) (s : EnvState)
    (he : (create_ovdc cfg w s).err = none) :
    SOvdc cfg (create_ovdc cfg w s).w := by
  unfold create_ovdc at he ⊢
  unfold SOvdc
  cases h1 : (basic_check s).org_href with
  | none => simp only [h1] at he; exact absurd he (Option.some_ne_none _)
  | some oh =>
    cases h2 : (basic_check s).pvdc_name with
    | none => simp only [h1, h2] at he; exact absurd he (Option.some_ne_none _)
    | some pn =>
      simp only [h1, h2] at he ⊢
      cases h3 : findCI w.vdcs cfg.default_ovdc_name with
      | some r => simp only [h3]; simp [h3]
      | none =>
        simp only [h3] at he ⊢
        cases h4 : get_netpool_name_to_use cfg w with
        | mk tr1 res =>
          cases res with
          | error e => simp only [h4] at he; exact absurd he (Option.some_ne_none _)
          | ok np =>
            simp only [h4] at he ⊢
            cases h5 : wait_for_success
                { w with vdcs := w.vdcs ++
                    [⟨cfg.default_ovdc_name, mkHref "vdc" cfg.default_ovdc_name⟩] } with
            | mk e trw =>
              cases e with
              | some e2 => simp only [h5] at he; simp at he
              | none =>
                simp only [h5] at he ⊢
                cases h6 : findCILast
                    (w.vdcs ++ [⟨cfg.default_ovdc_name,
                                 mkHref "vdc" cfg.default_ovdc_name⟩])
                    cfg.default_ovdc_name <;>
                  · simp only [h6]
                    exact findCI_self_append _ _ _

theorem create_ovdc_network_estab (cfg : Config) (w : Remote) (s : EnvState)
    (he : (create_ovdc_network cfg w s).err = none) :
    SNet cfg (create_ovdc_network cfg w s).w := by
  unfold create_ovdc_network at he ⊢
  unfold SNet
  cases h1 : (basic_check s).ovdc_href with
  | none => simp only [h1] at he; exact absurd he (Option.some_ne_none _)
  | some oh =>
    simp only [h1] at he ⊢
    cases h2 : findCI w.networks cfg.default_ovdc_network_name with
    | some r => simp only [h2]; simp [h2]
    | none =>
      simp only [h2] at he ⊢
      cases h3 : wait_for_success
          { w with networks := w.networks ++
              [⟨cfg.default_ovdc_network_name,
                mkHref "network" cfg.default_ovdc_network_name⟩] } with
      | mk e trw => exact findCI_self_append _ _ _

theorem create_catalog_estab (cfg : Config) (w : Remote) (s : EnvState)
    (he : (create_catalog cfg w s).err = none) :
    SCat cfg (create_catalog cfg w s).w := by
  unfold create_catalog at he ⊢
  unfold SCat
  cases h1 : (basic_check s).org_href with
  | none => simp only [h1] at he; exact absurd he (Option.some_ne_none _)
  | some oh =>
    simp only [h1] at he ⊢
    cases h2 : findExact w.catalogs cfg.default_catalog_name with
    | some r => simp only [h2]; simp [h2]
    | none =>
      simp only [h2] at he ⊢
      cases h3 : wait_for_success
          { w with catalogs := w.catalogs ++
              [⟨cfg.default_catalog_name,
                mkHref "catalog" cfg.default_catalog_name⟩] } with
      | mk e trw => exact findExact_self_append _ _ _

theorem upload_template_estab (cfg : Config) (w : Remote) (s : EnvState)
    (he : (upload_template cfg w s).err = none) :
    STpl cfg (upload_template cfg w s).w := by
  unfold upload_template at he ⊢
  unfold STpl
  cases h1 : (basic_check s).org_href with
  | none => simp only [h1] at he; exact absurd he (Option.some_ne_none _)
  | some oh =>
    simp only [h1] at he ⊢
    cases h2 : findCI w.catalog_items cfg.default_template_file_name with
    | some r => simp only [h2]; simp [h2]
    | none =>
      simp only [h2] at he ⊢
      cases h3 : wait_for_success
          { w with catalog_items := w.catalog_items ++
              [⟨cfg.default_template_file_name,
                mkHref "catalog_item" cfg.default_template_file_name⟩] } with
      | mk e trw => exact findCI_self_append _ _ _

theorem instantiate_vapp_estab (cfg : Config) (w : Remote) (s : EnvState)
    (he : (instantiate_vapp none cfg w s).err = none) :
    SVapp cfg (instantiate_vapp none cfg w s).w := by
  unfold instantiate_vapp at he ⊢
  unfold SVapp
  cases h1 : (basic_check s).ovdc_href with
  | none => simp only [h1] at he; exact absurd he (Option.some_ne_none _)
  | some oh =>
    simp only [h1] at he ⊢
    cases h2 : findExact w.vapps cfg.default_vapp_name with
    | some r =>
      simp only [get_vapp, h2]
      simp [h2]
    | none =>
      have hmsg : pyIn "not found"
          (pyStr (PyError.exception
            ("Vapp named " ++ apos ++ cfg.default_vapp_name ++ apos ++
             " not found"))) = true := by
        show pyIn "not found"
          ("Vapp named " ++ apos ++ cfg.default_vapp_name ++ apos ++
           " not found") = true
        exact pyIn_append_right _ _ _ (by decide)
      simp only [get_vapp, h2, hmsg, if_true] at he ⊢
      cases h3 : wait_for_success
          { w with vapps := w.vapps ++
              [⟨cfg.default_vapp_name, mkHref "vapp" cfg.default_vapp_name⟩] } with
      | mk e trw =>
        cases e with
        | some e2 => simp only [h3] at he; simp at he
        | none =>
          simp only [h3]
          exact findExact_self_append _ _ _

theorem NoCreate_append {t1 t2 : List Call} (h1 : NoCreate t1) (h2 : NoCreate t2) :
    NoCreate (t1 ++ t2) := by
  intro k n hm
  rcases List.mem_append.mp hm with h | h
  · exact h1 k n h
  · exact h2 k n h

theorem attach_vc_reuse (cfg : Config) (w : Remote) (s : EnvState)
    (h : SVc cfg w) :
    attach_vc cfg w s =
      ⟨basic_check s, w,
       [Call.listCall "vcenter",
        Call.logDebug (cfg.vcenter_host_name ++ " is already attached.")], none⟩ := by
  obtain ⟨r, hr⟩ := Option.isSome_iff_exists.mp h
  simp [attach_vc, hr]

theorem create_pvdc_reuse (cfg : Config) (w : Remote) (s : EnvState)
    (h : SPvdc cfg w) :
    (create_pvdc cfg w s).err = none ∧ (create_pvdc cfg w s).w = w ∧
    NoCreate (create_pvdc cfg w s).tr ∧
    (create_pvdc cfg w s).s.pvdc_name.isSome ∧
    (create_pvdc cfg w s).s.org_href = s.org_href ∧
    (create_pvdc cfg w s).s.ovdc_href = s.ovdc_href := by
  by_cases hstar : cfg.default_pvdc_name = "*"
  · have hp : w.pvdcs ≠ [] := by
      cases h with
      | inl h => exact absurd hstar h.1
      | inr h => exact h
    cases hc : w.pvdcs with
    | nil => exact absurd hc hp
    | cons r0 rest =>
      simp [create_pvdc, hstar, pvdc_default, hc, basic_check, NoCreate]
  · cases hf : findCI w.pvdcs cfg.default_pvdc_name with
    | some r =>
      simp [create_pvdc, hstar, hf, basic_check, NoCreate]
    | none =>
      have hp : w.pvdcs ≠ [] := by
        cases h with
        | inl h => rw [hf] at h; exact absurd h.2 (by simp)
        | inr h => exact h
      cases hc : w.pvdcs with
      | nil => exact absurd hc hp
      | cons r0 rest =>
        rw [hc] at hf
        simp [create_pvdc, hstar, hf, pvdc_default, hc, basic_check, NoCreate]

theorem create_org_reuse (cfg : Config) (w : Remote) (s : EnvState)
    (h : SOrg cfg w) :
    (create_org cfg w s).err = none ∧ (create_org cfg w s).w = w ∧
    NoCreate (create_org cfg w s).tr ∧
    (create_org cfg w s).s.org_href.isSome ∧
    (create_org cfg w s).s.pvdc_name = s.pvdc_name ∧
    (create_org cfg w s).s.ovdc_href = s.ovdc_href := by
  obtain ⟨r, hr⟩ := Option.isSome_iff_exists.mp h
  simp [create_org, hr, basic_check, NoCreate]

theorem create_users_loop_reuse (cfg : Config) (roles : List (String × String))
    (w : Remote) (s : EnvState)
    (h : ∀ p ∈ roles, w.users.filter (fun u => pyLower u.name = pyLower p.2) ≠ []) :
    (create_users_loop cfg roles w s).err = none ∧
    (create_users_loop cfg roles w s).w = w ∧
    NoCreate (create_users_loop cfg roles w s).tr ∧
    (create_users_loop cfg roles w s).s.org_href = s.org_href ∧
    (create_users_loop cfg roles w s).s.pvdc_name = s.pvdc_name ∧
    (create_users_loop cfg roles w s).s.ovdc_href = s.ovdc_href := by
  induction roles generalizing s with
  | nil => simp [create_users_loop, NoCreate]
  | cons q rest ih =>
    obtain ⟨roleName, userName⟩ := q
    have hq : w.users.filter (fun u => pyLower u.name = pyLower userName) ≠ [] :=
      h (roleName, userName) (List.mem_cons_self _ _)
    cases hf : w.users.filter (fun u => pyLower u.name = pyLower userName) with
    | nil => exact absurd hf hq
    | cons u0 us =>
      have hrest := ih
        ({ s with user_href_for_user_names :=
            mapInsert s.user_href_for_user_names userName u0.href })
        (fun p hp => h p (List.mem_cons_of_mem _ hp))
      unfold create_users_loop
      simp only [hf]
      refine ⟨hrest.1, hrest.2.1, ?_, ?_, ?_, ?_⟩
      · refine NoCreate_append (NoCreate_append ?_ ?_) hrest.2.2.1 <;>
          simp [NoCreate]
      · rw [hrest.2.2.2.1]
      · rw [hrest.2.2.2.2.1]
      · rw [hrest.2.2.2.2.2]

theorem create_users_reuse (cfg : Config) (w : Remote) (s : EnvState)
    (hOrg : s.org_href.isSome) (h : SUsers w) :
    (create_users cfg w s).err = none ∧ (create_users cfg w s).w = w ∧
    NoCreate (create_users cfg w s).tr ∧
    (create_users cfg w s).s.org_href = s.org_href ∧
    (create_users cfg w s).s.pvdc_name = s.pvdc_name ∧
    (create_users cfg w s).s.ovdc_href = s.ovdc_href := by
  obtain ⟨oh, ho⟩ := Option.isSome_iff_exists.mp hOrg
  unfold create_users
  have hb : (basic_check s).org_href = some oh := by simp [basic_check, ho]
  simp only [hb]
  have := create_users_loop_reuse cfg user_name_for_roles w (basic_check s) h
  exact ⟨this.1, this.2.1, this.2.2.1,
         by rw [this.2.2.2.1]; simp [basic_check],
         by rw [this.2.2.2.2.1]; simp [basic_check],
         by rw [this.2.2.2.2.2]; simp [basic_check]⟩

theorem create_ovdc_reuse (cfg : Config) (w : Remote) (s : EnvState)
    (hOrg : s.org_href.isSome) (hPv : s.pvdc_name.isSome) (h : SOvdc cfg w) :
    (create_ovdc cfg w s).err = none ∧ (create_ovdc cfg w s).w = w ∧
    NoCreate (create_ovdc cfg w s).tr ∧
    (create_ovdc cfg w s).s.ovdc_href.isSome ∧
    (create_ovdc cfg w s).s.org_href = s.org_href := by
  obtain ⟨oh, ho⟩ := Option.isSome_iff_exists.mp hOrg
  obtain ⟨pn, hp⟩ := Option.isSome_iff_exists.mp hPv
  obtain ⟨r, hr⟩ := Option.isSome_iff_exists.mp h
  simp [create_ovdc, basic_check, ho, hp, hr, NoCreate]

theorem create_ovdc_network_reuse (cfg : Config) (w : Remote) (s : EnvState)
    (hOv : s.ovdc_href.isSome) (h : SNet cfg w) :
    create_ovdc_network cfg w s =
      ⟨basic_check s, w,
       [Call.listCall "network",
        Call.logDebug ("Reusing existing org-vdc network " ++
                       cfg.default_ovdc_network_name)], none⟩ := by
  obtain ⟨oh, ho⟩ := Option.isSome_iff_exists.mp hOv
  obtain ⟨r, hr⟩ := Option.isSome_iff_exists.mp h
  simp [create_ovdc_network, basic_check, ho, hr]

theorem create_catalog_reuse (cfg : Config) (w : Remote) (s : EnvState)
    (hOrg : s.org_href.isSome) (h : SCat cfg w) :
    create_catalog cfg w s =
      ⟨basic_check s, w,
       [Call.listCall "catalog",
        Call.logDebug ("Reusing existing catalog " ++ cfg.default_catalog_name)],
       none⟩ := by
  obtain ⟨oh, ho⟩ := Option.isSome_iff_exists.mp hOrg
  obtain ⟨r, hr⟩ := Option.isSome_iff_exists.mp h
  simp [create_catalog, basic_check, ho, hr]

theorem upload_template_reuse (cfg : Config) (w : Remote) (s : EnvState)
    (hOrg : s.org_href.isSome) (h : STpl cfg w) :
    upload_template cfg w s =
      ⟨basic_check s, w,
       [Call.listCall "catalog_item",
        Call.logDebug ("Reusing existing template " ++
                       cfg.default_template_file_name)], none⟩ := by
  obtain ⟨oh, ho⟩ := Option.isSome_iff_exists.mp hOrg
  obtain ⟨r, hr⟩ := Option.isSome_iff_exists.mp h
  simp [upload_template, basic_check, ho, hr]

theorem instantiate_vapp_reuse (cfg : Config) (w : Remote) (s : EnvState)
    (hOv : s.ovdc_href.isSome) (h : SVapp cfg w) :
    (instantiate_vapp none cfg w s).err = none ∧
    (instantiate_vapp none cfg w s).w = w ∧
    NoCreate (instantiate_vapp none cfg w s).tr := by
  obtain ⟨oh, ho⟩ := Option.isSome_iff_exists.mp hOv
  obtain ⟨r, hr⟩ := Option.isSome_iff_exists.mp h
  simp [instantiate_vapp, basic_check, ho, get_vapp, hr, NoCreate]

theorem stepSeq_of_err_none {o : Out} {f : Remote → EnvState → Out}
    (h : o.err = none) :
    stepSeq o f = ⟨(f o.w o.s).s, (f o.w o.s).w, o.tr ++ (f o.w o.s).tr,
                   (f o.w o.s).err⟩ := by
  unfold stepSeq
  rw [h]

theorem stepSeq_ok {o : Out} {f : Remote → EnvState → Out}
    (h : (stepSeq o f).err = none) :
    o.err = none ∧ (f o.w o.s).err = none ∧
    (stepSeq o f).w = (f o.w o.s).w ∧ (stepSeq o f).s = (f o.w o.s).s := by
  cases ho : o.err with
  | none =>
    rw [stepSeq_of_err_none ho] at h ⊢
    exact ⟨rfl, h, rfl, rfl⟩
  | some e =>
    have hso : stepSeq o f = o := by unfold stepSeq; rw [ho]
    rw [hso, ho] at h
    exact absurd h (by simp)

theorem stepSeq_reuse {o : Out} {w : Remote} {f : Remote → EnvState → Out}
    (h1 : o.err = none) (h2 : o.w = w) (h3 : NoCreate o.tr)
    (h4 : (f w o.s).err = none) (h5 : (f w o.s).w = w)
    (h6 : NoCreate (f w o.s).tr) :
    (stepSeq o f).err = none ∧ (stepSeq o f).w = w ∧
    NoCreate (stepSeq o f).tr ∧ (stepSeq o f).s = (f w o.s).s := by
  rw [stepSeq_of_err_none h1, h2]
  exact ⟨h4, h5, NoCreate_append h3 h6, rfl⟩

theorem SVc_mono {cfg : Config} {w w2 : Remote} (h : SVc cfg w)
    (he : WExt w w2) : SVc cfg w2 :=
  findCI_isSome_mono h he.1

theorem SPvdc_mono {cfg : Config} {w w2 : Remote} (h : SPvdc cfg w)
    (he : WExt w w2) : SPvdc cfg w2 := by
  cases h with
  | inl h => exact Or.inl ⟨h.1, findCI_isSome_mono h.2 he.2.1⟩
  | inr h => exact Or.inr (ne_nil_mono h he.2.1)

theorem SOrg_mono {cfg : Config} {w w2 : Remote} (h : SOrg cfg w)
    (he : WExt w w2) : SOrg cfg w2 :=
  findCI_isSome_mono h he.2.2.1

theorem SUsers_mono {w w2 : Remote} (h : SUsers w) (he : WExt w w2) :
    SUsers w2 :=
  fun p hp => filter_ne_nil_mono (h p hp) he.2.2.2.1

theorem SOvdc_mono {cfg : Config} {w w2 : Remote} (h : SOvdc cfg w)
    (he : WExt w w2) : SOvdc cfg w2 :=
  findCI_isSome_mono h he.2.2.2.2.2.1

theorem SNet_mono {cfg : Config} {w w2 : Remote} (h : SNet cfg w)
    (he : WExt w w2) : SNet cfg w2 :=
  findCI_isSome_mono h he.2.2.2.2.2.2.2.1

theorem SCat_mono {cfg : Config} {w w2 : Remote} (h : SCat cfg w)
    (he : WExt w w2) : SCat cfg w2 :=
  findExact_isSome_mono h he.2.2.2.2.2.2.2.2.1

theorem STpl_mono {cfg : Config} {w w2 : Remote} (h : STpl cfg w)
    (he : WExt w w2) : STpl cfg w2 :=
  findCI_isSome_mono h he.2.2.2.2.2.2.2.2.2.1

theorem SVapp_mono {cfg : Config} {w w2 : Remote} (h : SVapp cfg w)
    (he : WExt w w2) : SVapp cfg w2 :=
  findExact_isSome_mono h he.2.2.2.2.2.2.2.2.2.2

/-- A successful provisioning run leaves the remote state fully settled:
    every step of a subsequent run will find its resource. -/
theorem runAll_settles (cfg : Config) (w : Remote) (s : EnvState)
    (h : (runAll cfg w s).err = none) :
    Settled cfg (runAll cfg w s).w := by
  unfold runAll at h ⊢
  have t9 := stepSeq_ok h
  have t8 := stepSeq_ok t9.1
  have t7 := stepSeq_ok t8.1
  have t6 := stepSeq_ok t7.1
  have t5 := stepSeq_ok t6.1
  have t4 := stepSeq_ok t5.1
  have t3 := stepSeq_ok t4.1
  have t2 := stepSeq_ok t3.1
  have E1 : SVc cfg (attach_vc cfg w s).w := attach_vc_estab cfg w s
  have E2 : SPvdc cfg (stepSeq (attach_vc cfg w s) (create_pvdc cfg)).w := by
    rw [t2.2.2.1]
    exact create_pvdc_estab cfg (attach_vc cfg w s).w (attach_vc cfg w s).s t2.2.1
  have E3 : SOrg cfg (stepSeq (stepSeq (attach_vc cfg w s) (create_pvdc cfg)) (create_org cfg)).w := by
    rw [t3.2.2.1]
    exact create_org_estab cfg (stepSeq (attach_vc cfg w s) (create_pvdc cfg)).w (stepSeq (attach_vc cfg w s) (create_pvdc cfg)).s
  have E4 : SUsers (stepSeq (stepSeq (stepSeq (attach_vc cfg w s) (create_pvdc cfg)) (create_org cfg)) (create_users cfg)).w := by
    rw [t4.2.2.1]
    exact create_users_estab cfg (stepSeq (stepSeq (attach_vc cfg w s) (create_pvdc cfg)) (create_org cfg)).w (stepSeq (stepSeq (attach_vc cfg w s) (create_pvdc cfg)) (create_org cfg)).s t4.2.1
  have E5 : SOvdc cfg (stepSeq (stepSeq (stepSeq (stepSeq (attach_vc cfg w s) (create_pvdc cfg)) (create_org cfg)) (create_users cfg)) (create_ovdc cfg)).w := by
    rw [t5.2.2.1]
    exact create_ovdc_estab cfg (stepSeq (stepSeq (stepSeq (attach_vc cfg w s) (create_pvdc cfg)) (create_org cfg)) (create_users cfg)).w (stepSeq (stepSeq (stepSeq (attach_vc cfg w s) (create_pvdc cfg)) (create_org cfg)) (create_users cfg)).s t5.2.1
  have E6 : SNet cfg (stepSeq (stepSeq (stepSeq (stepSeq (stepSeq (attach_vc cfg w s) (create_pvdc cfg)) (create_org cfg)) (create_users cfg)) (create_ovdc cfg)) (create_ovdc_network cfg)).w := by
    rw [t6.2.2.1]
    exact create_ovdc_network_estab cfg (stepSeq (stepSeq (stepSeq (stepSeq (attach_vc cfg w s) (create_pvdc cfg)) (create_org cfg)) (create_users cfg)) (create_ovdc cfg)).w (stepSeq (stepSeq (stepSeq (stepSeq (attach_vc cfg w s) (create_pvdc cfg)) (create_org cfg)) (create_users cfg)) (create_ovdc cfg)).s t6.2.1
  have E7 : SCat cfg (stepSeq (stepSeq (stepSeq (stepSeq (stepSeq (stepSeq (attach_vc cfg w s) (create_pvdc cfg)) (create_org cfg)) (create_users cfg)) (create_ovdc cfg)) (create_ovdc_network cfg)) (create_catalog cfg)).w := by
    rw [t7.2.2.1]
    exact create_catalog_estab cfg (stepSeq (stepSeq (stepSeq (stepSeq (stepSeq (attach_vc cfg w s) (create_pvdc cfg)) (create_org cfg)) (create_users cfg)) (create_ovdc cfg)) (create_ovdc_network cfg)).w (stepSeq (stepSeq (stepSeq (stepSeq (stepSeq (attach_vc cfg w s) (create_pvdc cfg)) (create_org cfg)) (create_users cfg)) (create_ovdc cfg)) (create_ovdc_network cfg)).s t7.2.1
  have E8 : STpl cfg (stepSeq (stepSeq (stepSeq (stepSeq (stepSeq (stepSeq (stepSeq (attach_vc cfg w s) (create_pvdc cfg)) (create_org cfg)) (create_users cfg)) (create_ovdc cfg)) (create_ovdc_network cfg)) (create_catalog cfg)) (upload_template cfg)).w := by
    rw [t8.2.2.1]
    exact upload_template_estab cfg (stepSeq (stepSeq (stepSeq (stepSeq (stepSeq (stepSeq (attach_vc cfg w s) (create_pvdc cfg)) (create_org cfg)) (create_users cfg)) (create_ovdc cfg)) (create_ovdc_network cfg)) (create_catalog cfg)).w (stepSeq (stepSeq (stepSeq (stepSeq (stepSeq (stepSeq (attach_vc cfg w s) (create_pvdc cfg)) (create_org cfg)) (create_users cfg)) (create_ovdc cfg)) (create_ovdc_network cfg)) (create_catalog cfg)).s t8.2.1
  have E9 : SVapp cfg (stepSeq (stepSeq (stepSeq (stepSeq (stepSeq (stepSeq (stepSeq (stepSeq (attach_vc cfg w s) (create_pvdc cfg)) (create_org cfg)) (create_users cfg)) (create_ovdc cfg)) (create_ovdc_network cfg)) (create_catalog cfg)) (upload_template cfg)) (instantiate_vapp none cfg)).w := by
    rw [t9.2.2.1]
    exact instantiate_vapp_estab cfg (stepSeq (stepSeq (stepSeq (stepSeq (stepSeq (stepSeq (stepSeq (attach_vc cfg w s) (create_pvdc cfg)) (create_org cfg)) (create_users cfg)) (create_ovdc cfg)) (create_ovdc_network cfg)) (create_catalog cfg)) (upload_template cfg)).w (stepSeq (stepSeq (stepSeq (stepSeq (stepSeq (stepSeq (stepSeq (attach_vc cfg w s) (create_pvdc cfg)) (create_org cfg)) (create_users cfg)) (create_ovdc cfg)) (create_ovdc_network cfg)) (create_catalog cfg)) (upload_template cfg)).s t9.2.1
  have X2 : WExt (attach_vc cfg w s).w (stepSeq (attach_vc cfg w s) (create_pvdc cfg)).w := by
    rw [t2.2.2.1, create_pvdc_w]
    exact WExt.refl _
  have X3 : WExt (stepSeq (attach_vc cfg w s) (create_pvdc cfg)).w (stepSeq (stepSeq (attach_vc cfg w s) (create_pvdc cfg)) (create_org cfg)).w := by
    rw [t3.2.2.1]
    exact create_org_wext cfg (stepSeq (attach_vc cfg w s) (create_pvdc cfg)).w (stepSeq (attach_vc cfg w s) (create_pvdc cfg)).s
  have X4 : WExt (stepSeq (stepSeq (attach_vc cfg w s) (create_pvdc cfg)) (create_org cfg)).w (stepSeq (stepSeq (stepSeq (attach_vc cfg w s) (create_pvdc cfg)) (create_org cfg)) (create_users cfg)).w := by
    rw [t4.2.2.1]
    exact create_users_wext cfg (stepSeq (stepSeq (attach_vc cfg w s) (create_pvdc cfg)) (create_org cfg)).w (stepSeq (stepSeq (attach_vc cfg w s) (create_pvdc cfg)) (create_org cfg)).s
  have X5 : WExt (stepSeq (stepSeq (stepSeq (attach_vc cfg w s) (create_pvdc cfg)) (create_org cfg)) (create_users cfg)).w (stepSeq (stepSeq (stepSeq (stepSeq (attach_vc cfg w s) (create_pvdc cfg)) (create_org cfg)) (create_users cfg)) (create_ovdc cfg)).w := by
    rw [t5.2.2.1]
    exact create_ovdc_wext cfg (stepSeq (stepSeq (stepSeq (attach_vc cfg w s) (create_pvdc cfg)) (create_org cfg)) (create_users cfg)).w (stepSeq (stepSeq (stepSeq (attach_vc cfg w s) (create_pvdc cfg)) (create_org cfg)) (create_users cfg)).s
  have X6 : WExt (stepSeq (stepSeq (stepSeq (stepSeq (attach_vc cfg w s) (create_pvdc cfg)) (create_org cfg)) (create_users cfg)) (create_ovdc cfg)).w (stepSeq (stepSeq (stepSeq (stepSeq (stepSeq (attach_vc cfg w s) (create_pvdc cfg)) (create_org cfg)) (create_users cfg)) (create_ovdc cfg)) (create_ovdc_network cfg)).w := by
    rw [t6.2.2.1]
    exact create_ovdc_network_wext cfg (stepSeq (stepSeq (stepSeq (stepSeq (attach_vc cfg w s) (create_pvdc cfg)) (create_org cfg)) (create_users cfg)) (create_ovdc cfg)).w (stepSeq (stepSeq (stepSeq (stepSeq (attach_vc cfg w s) (create_pvdc cfg)) (create_org cfg)) (create_users cfg)) (create_ovdc cfg)).s
  have X7 : WExt (stepSeq (stepSeq (stepSeq (stepSeq (stepSeq (attach_vc cfg w s) (create_pvdc cfg)) (create_org cfg)) (create_users cfg)) (create_ovdc cfg)) (create_ovdc_network cfg)).w (stepSeq (stepSeq (stepSeq (stepSeq (stepSeq (stepSeq (attach_vc cfg w s) (create_pvdc cfg)) (create_org cfg)) (create_users cfg)) (create_ovdc cfg)) (create_ovdc_network cfg)) (create_catalog cfg)).w := by
    rw [t7.2.2.1]
    exact create_catalog_wext cfg (stepSeq (stepSeq (stepSeq (stepSeq (stepSeq (attach_vc cfg w s) (create_pvdc cfg)) (create_org cfg)) (create_users cfg)) (create_ovdc cfg)) (create_ovdc_network cfg)).w (stepSeq (stepSeq (stepSeq (stepSeq (stepSeq (attach_vc cfg w s) (create_pvdc cfg)) (create_org cfg)) (create_users cfg)) (create_ovdc cfg)) (create_ovdc_network cfg)).s
  have X8 : WExt (stepSeq (stepSeq (stepSeq (stepSeq (stepSeq (stepSeq (attach_vc cfg w s) (create_pvdc cfg)) (create_org cfg)) (create_users cfg)) (create_ovdc cfg)) (create_ovdc_network cfg)) (create_catalog cfg)).w (stepSeq (stepSeq (stepSeq (stepSeq (stepSeq (stepSeq (stepSeq (attach_vc cfg w s) (create_pvdc cfg)) (create_org cfg)) (create_users cfg)) (create_ovdc cfg)) (create_ovdc_network cfg)) (create_catalog cfg)) (upload_template cfg)).w := by
    rw [t8.2.2.1]
    exact upload_template_wext cfg (stepSeq (stepSeq (stepSeq (stepSeq (stepSeq (stepSeq (attach_vc cfg w s) (create_pvdc cfg)) (create_org cfg)) (create_users cfg)) (create_ovdc cfg)) (create_ovdc_network cfg)) (create_catalog cfg)).w (stepSeq (stepSeq (stepSeq (stepSeq (stepSeq (stepSeq (attach_vc cfg w s) (create_pvdc cfg)) (create_org cfg)) (create_users cfg)) (create_ovdc cfg)) (create_ovdc_network cfg)) (create_catalog cfg)).s
  have X9 : WExt (stepSeq (stepSeq (stepSeq (stepSeq (stepSeq (stepSeq (stepSeq (attach_vc cfg w s) (create_pvdc cfg)) (create_org cfg)) (create_users cfg)) (create_ovdc cfg)) (create_ovdc_network cfg)) (create_catalog cfg)) (upload_template cfg)).w (stepSeq (stepSeq (stepSeq (stepSeq (stepSeq (stepSeq (stepSeq (stepSeq (attach_vc cfg w s) (create_pvdc cfg)) (create_org cfg)) (create_users cfg)) (create_ovdc cfg)) (create_ovdc_network cfg)) (create_catalog cfg)) (upload_template cfg)) (instantiate_vapp none cfg)).w := by
    rw [t9.2.2.1]
    exact instantiate_vapp_wext none cfg (stepSeq (stepSeq (stepSeq (stepSeq (stepSeq (stepSeq (stepSeq (attach_vc cfg w s) (create_pvdc cfg)) (create_org cfg)) (create_users cfg)) (create_ovdc cfg)) (create_ovdc_network cfg)) (create_catalog cfg)) (upload_template cfg)).w (stepSeq (stepSeq (stepSeq (stepSeq (stepSeq (stepSeq (stepSeq (attach_vc cfg w s) (create_pvdc cfg)) (create_org cfg)) (create_users cfg)) (create_ovdc cfg)) (create_ovdc_network cfg)) (create_catalog cfg)) (upload_template cfg)).s
  have D8 := X9
  have D7 := X8.trans D8
  have D6 := X7.trans D7
  have D5 := X6.trans D6
  have D4 := X5.trans D5
  have D3 := X4.trans D4
  have D2 := X3.trans D3
  have D1 := X2.trans D2
  exact ⟨SVc_mono E1 D1, SPvdc_mono E2 D2, SOrg_mono E3 D3, SUsers_mono E4 D4,
         SOvdc_mono E5 D5, SNet_mono E6 D6, SCat_mono E7 D7, STpl_mono E8 D8, E9⟩

/-- On a settled remote state, a full provisioning run succeeds, leaves
    the remote state unchanged, and issues no creation call: every step
    takes its found-existing branch. -/
theorem runAll_settled_reuse (cfg : Config) (w : Remote)
    (hS : Settled cfg w) :
    (runAll cfg w initState).err = none ∧
    (runAll cfg w initState).w = w ∧
    NoCreate (runAll cfg w initState).tr := by
  obtain ⟨hVc, hPv, hOrg, hUs, hOv, hNet, hCat, hTpl, hVa⟩ := hS
  unfold runAll
  have A1rw := attach_vc_reuse cfg w initState hVc
  have P1e : (attach_vc cfg w initState).err = none := by rw [A1rw]
  have P1w : (attach_vc cfg w initState).w = w := by rw [A1rw]
  have P1n : NoCreate (attach_vc cfg w initState).tr := by
    rw [A1rw]; simp [NoCreate]
  have B2 := create_pvdc_reuse cfg w (attach_vc cfg w initState).s hPv
  have P2 := stepSeq_reuse P1e P1w P1n B2.1 B2.2.1 B2.2.2.1
  have F2pv : (stepSeq (attach_vc cfg w initState) (create_pvdc cfg)).s.pvdc_name.isSome := by
    rw [P2.2.2.2]; exact B2.2.2.2.1
  have B3 := create_org_reuse cfg w (stepSeq (attach_vc cfg w initState) (create_pvdc cfg)).s hOrg
  have P3 := stepSeq_reuse P2.1 P2.2.1 P2.2.2.1 B3.1 B3.2.1 B3.2.2.1
  have F3or : (stepSeq (stepSeq (attach_vc cfg w initState) (create_pvdc cfg)) (create_org cfg)).s.org_href.isSome := by
    rw [P3.2.2.2]; exact B3.2.2.2.1
  have F3pv : (stepSeq (stepSeq (attach_vc cfg w initState) (create_pvdc cfg)) (create_org cfg)).s.pvdc_name.isSome := by
    rw [P3.2.2.2, B3.2.2.2.2.1]; exact F2pv
  have B4 := create_users_reuse cfg w (stepSeq (stepSeq (attach_vc cfg w initState) (create_pvdc cfg)) (create_org cfg)).s F3or hUs
  have P4 := stepSeq_reuse P3.1 P3.2.1 P3.2.2.1 B4.1 B4.2.1 B4.2.2.1
  have F4or : (stepSeq (stepSeq (stepSeq (attach_vc cfg w initState) (create_pvdc cfg)) (create_org cfg)) (create_users cfg)).s.org_href.isSome := by
    rw [P4.2.2.2, B4.2.2.2.1]; exact F3or
  have F4pv : (stepSeq (stepSeq (stepSeq (attach_vc cfg w initState) (create_pvdc cfg)) (create_org cfg)) (create_users cfg)).s.pvdc_name.isSome := by
    rw [P4.2.2.2, B4.2.2.2.2.1]; exact F3pv
  have B5 := create_ovdc_reuse cfg w (stepSeq (stepSeq (stepSeq (attach_vc cfg w initState) (create_pvdc cfg)) (create_org cfg)) (create_users cfg)).s F4or F4pv hOv
  have P5 := stepSeq_reuse P4.1 P4.2.1 P4.2.2.1 B5.1 B5.2.1 B5.2.2.1
  have F5ov : (stepSeq (stepSeq (stepSeq (stepSeq (attach_vc cfg w initState) (create_pvdc cfg)) (create_org cfg)) (create_users cfg)) (create_ovdc cfg)).s.ovdc_href.isSome := by
    rw [P5.2.2.2]; exact B5.2.2.2.1
  have F5or : (stepSeq (stepSeq (stepSeq (stepSeq (attach_vc cfg w initState) (create_pvdc cfg)) (create_org cfg)) (create_users cfg)) (create_ovdc cfg)).s.org_href.isSome := by
    rw [P5.2.2.2, B5.2.2.2.2]; exact F4or
  have B6 := create_ovdc_network_reuse cfg w (stepSeq (stepSeq (stepSeq (stepSeq (attach_vc cfg w initState) (create_pvdc cfg)) (create_org cfg)) (create_users cfg)) (create_ovdc cfg)).s F5ov hNet
  have B6e : (create_ovdc_network cfg w (stepSeq (stepSeq (stepSeq (stepSeq (attach_vc cfg w initState) (create_pvdc cfg)) (create_org cfg)) (create_users cfg)) (create_ovdc cfg)).s).err = none := by rw [B6]
  have B6w : (create_ovdc_network cfg w (stepSeq (stepSeq (stepSeq (stepSeq (attach_vc cfg w initState) (create_pvdc cfg)) (create_org cfg)) (create_users cfg)) (create_ovdc cfg)).s).w = w := by rw [B6]
  have B6n : NoCreate (create_ovdc_network cfg w (stepSeq (stepSeq (stepSeq (stepSeq (attach_vc cfg w initState) (create_pvdc cfg)) (create_org cfg)) (create_users cfg)) (create_ovdc cfg)).s).tr := by
    rw [B6]; simp [NoCreate]
  have P6 := stepSeq_reuse P5.1 P5.2.1 P5.2.2.1 B6e B6w B6n
  have F6or : (stepSeq (stepSeq (stepSeq (stepSeq (stepSeq (attach_vc cfg w initState) (create_pvdc cfg)) (create_org cfg)) (create_users cfg)) (create_ovdc cfg)) (create_ovdc_network cfg)).s.org_href.isSome := by
    rw [P6.2.2.2, B6]; dsimp only [basic_check]; exact F5or
  have F6ov : (stepSeq (stepSeq (stepSeq (stepSeq (stepSeq (attach_vc cfg w initState) (create_pvdc cfg)) (create_org cfg)) (create_users cfg)) (create_ovdc cfg)) (create_ovdc_network cfg)).s.ovdc_href.isSome := by
    rw [P6.2.2.2, B6]; dsimp only [basic_check]; exact F5ov
  have B7 := create_catalog_reuse cfg w (stepSeq (stepSeq (stepSeq (stepSeq (stepSeq (attach_vc cfg w initState) (create_pvdc cfg)) (create_org cfg)) (create_users cfg)) (create_ovdc cfg)) (create_ovdc_network cfg)).s F6or hCat
  have B7e : (create_catalog cfg w (stepSeq (stepSeq (stepSeq (stepSeq (stepSeq (attach_vc cfg w initState) (create_pvdc cfg)) (create_org cfg)) (create_users cfg)) (create_ovdc cfg)) (create_ovdc_network cfg)).s).err = none := by rw [B7]
  have B7w : (create_catalog cfg w (stepSeq (stepSeq (stepSeq (stepSeq (stepSeq (attach_vc cfg w initState) (create_pvdc cfg)) (create_org cfg)) (create_users cfg)) (create_ovdc cfg)) (create_ovdc_network cfg)).s).w = w := by rw [B7]
  have B7n : NoCreate (create_catalog cfg w (stepSeq (stepSeq (stepSeq (stepSeq (stepSeq (attach_vc cfg w initState) (create_pvdc cfg)) (create_org cfg)) (create_users cfg)) (create_ovdc cfg)) (create_ovdc_network cfg)).s).tr := by
    rw [B7]; simp [NoCreate]
  have P7 := stepSeq_reuse P6.1 P6.2.1 P6.2.2.1 B7e B7w B7n
  have F7or : (stepSeq (stepSeq (stepSeq (stepSeq (stepSeq (stepSeq (attach_vc cfg w initState) (create_pvdc cfg)) (create_org cfg)) (create_users cfg)) (create_ovdc cfg)) (create_ovdc_network cfg)) (create_catalog cfg)).s.org_href.isSome := by
    rw [P7.2.2.2, B7]; dsimp only [basic_check]; exact F6or
  have F7ov : (stepSeq (stepSeq (stepSeq (stepSeq (stepSeq (stepSeq (attach_vc cfg w initState) (create_pvdc cfg)) (create_org cfg)) (create_users cfg)) (create_ovdc cfg)) (create_ovdc_network cfg)) (create_catalog cfg)).s.ovdc_href.isSome := by
    rw [P7.2.2.2, B7]; dsimp only [basic_check]; exact F6ov
  have B8 := upload_template_reuse cfg w (stepSeq (stepSeq (stepSeq (stepSeq (stepSeq (stepSeq (attach_vc cfg w initState) (create_pvdc cfg)) (create_org cfg)) (create_users cfg)) (create_ovdc cfg)) (create_ovdc_network cfg)) (create_catalog cfg)).s F7or hTpl
  have B8e : (upload_template cfg w (stepSeq (stepSeq (stepSeq (stepSeq (stepSeq (stepSeq (attach_vc cfg w initState) (create_pvdc cfg)) (create_org cfg)) (create_users cfg)) (create_ovdc cfg)) (create_ovdc_network cfg)) (create_catalog cfg)).s).err = none := by rw [B8]
  have B8w : (upload_template cfg w (stepSeq (stepSeq (stepSeq (stepSeq (stepSeq (stepSeq (attach_vc cfg w initState) (create_pvdc cfg)) (create_org cfg)) (create_users cfg)) (create_ovdc cfg)) (create_ovdc_network cfg)) (create_catalog cfg)).s).w = w := by rw [B8]
  have B8n : NoCreate (upload_template cfg w (stepSeq (stepSeq (stepSeq (stepSeq (stepSeq (stepSeq (attach_vc cfg w initState) (create_pvdc cfg)) (create_org cfg)) (create_users cfg)) (create_ovdc cfg)) (create_ovdc_network cfg)) (create_catalog cfg)).s).tr := by
    rw [B8]; simp [NoCreate]
  have P8 := stepSeq_reuse P7.1 P7.2.1 P7.2.2.1 B8e B8w B8n
  have F8ov : (stepSeq (stepSeq (stepSeq (stepSeq (stepSeq (stepSeq (stepSeq (attach_vc cfg w initState) (create_pvdc cfg)) (create_org cfg)) (create_users cfg)) (create_ovdc cfg)) (create_ovdc_network cfg)) (create_catalog cfg)) (upload_template cfg)).s.ovdc_href.isSome := by
    rw [P8.2.2.2, B8]; dsimp only [basic_check]; exact F7ov
  have B9 := instantiate_vapp_reuse cfg w (stepSeq (stepSeq (stepSeq (stepSeq (stepSeq (stepSeq (stepSeq (attach_vc cfg w initState) (create_pvdc cfg)) (create_org cfg)) (create_users cfg)) (create_ovdc cfg)) (create_ovdc_network cfg)) (create_catalog cfg)) (upload_template cfg)).s F8ov hVa
  have P9 := stepSeq_reuse P8.1 P8.2.1 P8.2.2.1 B9.1 B9.2.1 B9.2.2
  exact ⟨P9.1, P9.2.1, P9.2.2.1⟩

/-! ### C1 -/

/-- C1: if a full provisioning run (attach_vc, create_pvdc, create_org,
    create_users, create_ovdc, create_ovdc_network, create_catalog,
    upload_template, instantiate_vapp) completes without error, then
    running the same sequence again with the same configuration against
    the remote state left by the first run succeeds, leaves the remote
    state unchanged, and issues zero creation calls: every step resolves
    its resource through the found-existing branch. -/
theorem second_run_creates_nothing (cfg : Config) (w : Remote)
    (h : (runAll cfg w initState).err = none) :
    (runAll cfg (runAll cfg w initState).w initState).err = none ∧
    (runAll cfg (runAll cfg w initState).w initState).w =
      (runAll cfg w initState).w ∧
    NoCreate (runAll cfg (runAll cfg w initState).w initState).tr :=
  runAll_settled_reuse cfg (runAll cfg w initState).w
    (runAll_settles cfg w initState h)

/-- A remote state holding only the pre-existing infrastructure (one
    pVDC, one netpool, the five role records): the first run must create
    the org, users, VDC, network, catalog, template and vApp. -/
def wSeed : Remote :=
  { emptyRemote with
      pvdcs := [⟨"p1", "hp1"⟩],
      netpools := [⟨"np1", "hnp1"⟩],
      roles := [⟨"Catalog Author", "hr1"⟩, ⟨"Console Access Only", "hr2"⟩,
                ⟨"Organization Administrator", "hr3"⟩, ⟨"vApp Author", "hr4"⟩,
                ⟨"vApp User", "hr5"⟩] }

/-- Witness for C1: the first run on the seeded remote succeeds (it
    creates everything missing), and the second run on the remote state
    it left behind succeeds with zero creation calls. -/
theorem second_run_creates_nothing_witness :
    (runAll cfgA wSeed initState).err = none ∧
    (runAll cfgA (runAll cfgA wSeed initState).w initState).err = none ∧
    NoCreate (runAll cfgA (runAll cfgA wSeed initState).w initState).tr :=
  ⟨by decide, (second_run_creates_nothing cfgA wSeed (by decide)).1,
   (second_run_creates_nothing cfgA wSeed (by decide)).2.2⟩
